import Mathlib

/-!
# Scenario scripts of NS-LAB-ENDSEM

A verification development for the three ns-3 scenario scripts
`midterm.cc`, `wired-tcp-udp.cc` and `wirelesslatest.cc`.

Each script is a straight-line `main` that drives the ns-3 helper API.  The
helper API is the external simulation framework; the part of it the scripts
touch is modelled in the first half of this file as explicit state passing
over a `World` (the process-wide simulator state: node list, installed
links, address allocations, applications, registered events).  The scripts
themselves are transcribed statement by statement in the second half; an
out-of-range `Get`/`GetAddress` or an address overflow makes the run
stop with an `Error`, and so does a statement that names an identifier
declared nowhere, which keeps the script from being built at all.

Link attributes (data rate, delay, queue type), logging, tracing and routing
table population do not influence any quantity studied here and are left out.
-/

namespace NsLab

/-! ## Time -/

/-- Simulation time, in nanoseconds (the default ns-3 resolution, which
`wirelesslatest.cc` also selects explicitly with `Time::SetResolution`). -/
abbrev Time := Int

/-- The ns-3 constructor `Seconds (s)` for a whole number of seconds. -/
def Seconds (s : Int) : Time := s * 1000000000

/-! ## Nodes and devices -/

/-- A node handle: its index in the global node list. -/
abbrev NodeId := Nat

/-- The ns-3 `NodeContainer`: a vector of node handles. -/
abbrev NodeContainer := List NodeId

/-- Medium kind of an installed link. -/
inductive LinkKind where
  | pointToPoint
  | csma
  | wifi
  deriving DecidableEq, Repr, Inhabited

/-- A net device: a unique device number and the node it is attached to. -/
structure NetDevice where
  id : Nat
  node : NodeId
  deriving DecidableEq, Repr, Inhabited

/-- The ns-3 `NetDeviceContainer`. -/
abbrev NetDeviceContainer := List NetDevice

/-- Record of one `Install` call of a link helper: the kind of helper, the
nodes it was applied to (in order) and the devices it returned. -/
structure LinkInstall where
  kind : LinkKind
  nodes : List NodeId
  devices : NetDeviceContainer
  deriving DecidableEq, Repr, Inhabited

/-! ## Addresses -/

/-- The 32-bit value of the dotted quad `a.b.c.d`. -/
def ipv4 (a b c d : Nat) : Nat := a * 16777216 + b * 65536 + c * 256 + d

/-- An address block as given to `SetBase`: network base and mask. -/
structure AddressBlock where
  base : Nat
  mask : Nat
  deriving DecidableEq, Repr, Inhabited

/-- Membership of a 32-bit address in a block (`Ipv4Mask::IsMatch`). -/
def AddressBlock.contains (b : AddressBlock) (a : Nat) : Prop :=
  a &&& b.mask = b.base &&& b.mask

instance (b : AddressBlock) (a : Nat) : Decidable (b.contains a) := by
  unfold AddressBlock.contains; infer_instance

/-- Two blocks overlap when some 32-bit address lies in both. -/
def AddressBlock.overlaps (b c : AddressBlock) : Prop :=
  ∃ a, a < 2 ^ 32 ∧ b.contains a ∧ c.contains a

/-- One assigned interface: the device, its address and its mask. -/
structure Ipv4Interface where
  device : NetDevice
  address : Nat
  mask : Nat
  deriving DecidableEq, Repr, Inhabited

/-- The ns-3 `Ipv4InterfaceContainer`. -/
abbrev Ipv4InterfaceContainer := List Ipv4Interface

/-- State of an `Ipv4AddressHelper` object. -/
structure Ipv4AddressHelper where
  network : Nat := 0
  mask : Nat := 0
  address : Nat := 0
  shift : Nat := 0
  max : Nat := 0
  deriving DecidableEq, Repr, Inhabited

/-- Number of low zero bits of a mask (`Ipv4AddressHelper::NumAddressBits`),
looking at no more than `fuel` bits. -/
def NumAddressBits : Nat → Nat → Nat
  | 0, _ => 0
  | fuel + 1, m => if m % 2 = 1 then 0 else 1 + NumAddressBits fuel (m / 2)

/-! ## Applications and events -/

/-- Values of helper attributes. -/
inductive AttributeValue where
  | uinteger (n : Nat)
  | time (t : Time)
  | string (s : String)
  | ipv4Address (a : Nat)
  | inetSocketAddress (a : Nat) (port : Nat)
  | anySocketAddress (port : Nat)
  deriving DecidableEq, Repr, Inhabited

/-- An application helper: the type it creates and the attribute list of its
object factory. -/
structure ApplicationHelper where
  typeId : String
  attributes : List (String × AttributeValue)
  deriving DecidableEq, Repr, Inhabited

/-- An installed application. -/
structure Application where
  typeId : String
  node : NodeId
  attributes : List (String × AttributeValue)
  startTime : Option Time
  stopTime : Option Time
  deriving DecidableEq, Repr, Inhabited

/-- The ns-3 `ApplicationContainer`: handles (indices) of applications. -/
abbrev ApplicationContainer := List Nat

/-- Actions of a scheduled event. -/
inductive Action where
  | StartEndpoint
  | StopEndpoint
  | SetLinkInterfaceUp
  | SetLinkInterfaceDown
  deriving DecidableEq, Repr, Inhabited

/-- A registered event: fire time, target handle and action. -/
structure ScheduledEvent where
  fireTime : Time
  target : Nat
  action : Action
  deriving DecidableEq, Repr, Inhabited

/-! ## The simulator state -/

/-- Process-wide state built up by a script. -/
structure World where
  nodeCount : Nat
  deviceCount : Nat
  installs : List LinkInstall
  stackInstalls : List (List NodeId)
  setBaseLog : List AddressBlock
  assignLog : List NetDeviceContainer
  interfaces : List Ipv4Interface
  applications : List Application
  schedule : List ScheduledEvent
  positions : List (NodeId × Int × Int)
  simulationEnd : Option Time
  deriving DecidableEq, Repr, Inhabited

/-- The state before `main` runs. -/
def World.init : World :=
  { nodeCount := 0, deviceCount := 0, installs := [], stackInstalls := [],
    setBaseLog := [], assignLog := [], interfaces := [], applications := [],
    schedule := [], positions := [], simulationEnd := none }

/-- Ways in which a run of a script stops early. -/
inductive Error where
  | indexOutOfRange
  | notTwoNodes
  | addressOverflow
  | undeclaredIdentifier
  deriving DecidableEq, Repr, Inhabited

deriving instance DecidableEq for Except

/-- The run `x` completes, and its result satisfies `P`. -/
def Completes {α : Type} (x : Except Error α) (P : α → Prop) : Prop :=
  ∃ r, x = .ok r ∧ P r

instance {α : Type} (x : Except Error α) (P : α → Prop) [DecidablePred P] :
    Decidable (Completes x P) :=
  match x with
  | .ok r =>
    if h : P r then isTrue ⟨r, rfl, h⟩
    else isFalse (by rintro ⟨r1, h1, hp⟩; cases h1; exact h hp)
  | .error _ => isFalse (by rintro ⟨r1, h1, _⟩; cases h1)

/-! ## Command line -/

/-- The declaration `CommandLine cmd (name)`.  Its argument is an identifier
of the translation unit: `some f` when the identifier is declared with the
value `f`, `none` when nothing declares it.  In the latter case the
declaration does not compile, the program is never built, and no statement of
`main` runs.  `midterm.cc` and `wired-tcp-udp.cc` pass `__FILE__`, which the
language predefines in every translation unit, so there the declaration
cannot fail and has no effect on the simulator state. -/
def CommandLine (name : Option String) : Except Error String :=
  match name with
  | some f => .ok f
  | none => .error .undeclaredIdentifier

/-! ## Node containers -/

/-- The call `c.Create (n)`: `n` fresh nodes are appended to `c`. -/
def NodeContainer.Create (c : NodeContainer) (n : Nat) (w : World) :
    NodeContainer × World :=
  (c ++ List.range' w.nodeCount n, { w with nodeCount := w.nodeCount + n })

/-- The call `c.Add (node)`. -/
def NodeContainer.Add (c : NodeContainer) (node : NodeId) : NodeContainer :=
  c ++ [node]

/-- The call `c.Get (i)`; an error when `i` is out of range. -/
def NodeContainer.Get (nc : NodeContainer) (i : Nat) : Except Error NodeId :=
  match nc.get? i with
  | some x => .ok x
  | none => .error .indexOutOfRange

/-! ## Link helpers -/

/-- Fresh devices, one per node of `nodes`, numbered from `first`. -/
def newDevices (first : Nat) (nodes : List NodeId) : NetDeviceContainer :=
  nodes.enum.map (fun p => { id := first + p.1, node := p.2 })

/-- Common part of every link helper `Install`: create the devices and record
the call. -/
def installLink (kind : LinkKind) (nodes : List NodeId) (w : World) :
    NetDeviceContainer × World :=
  let devices := newDevices w.deviceCount nodes
  (devices,
   { w with deviceCount := w.deviceCount + nodes.length,
            installs := w.installs ++ [{ kind := kind, nodes := nodes, devices := devices }] })

/-- The call `PointToPointHelper::Install (a, b)`. -/
def PointToPointHelper.Install (a b : NodeId) (w : World) : NetDeviceContainer × World :=
  installLink LinkKind.pointToPoint [a, b] w

/-- The call `PointToPointHelper::Install (c)` on a container, which takes
the two nodes `c.Get (0)` and `c.Get (1)` of a two-node container. -/
def PointToPointHelper.InstallContainer (c : NodeContainer) (w : World) :
    Except Error (NetDeviceContainer × World) :=
  match c with
  | [a, b] => .ok (PointToPointHelper.Install a b w)
  | _ => .error .notTwoNodes

/-- The call `CsmaHelper::Install (c)`: one device per node on one channel. -/
def CsmaHelper.Install (c : NodeContainer) (w : World) : NetDeviceContainer × World :=
  installLink LinkKind.csma c w

/-- The call `WifiHelper::Install (phy, mac, c)`: one device per node. -/
def WifiHelper.Install (c : NodeContainer) (w : World) : NetDeviceContainer × World :=
  installLink LinkKind.wifi c w

/-- The call `InternetStackHelper::Install`, on a container or (as a
one-element list) on a single node. -/
def InternetStackHelper.Install (c : List NodeId) (w : World) : World :=
  { w with stackInstalls := w.stackInstalls ++ [c] }

/-! ## Address helper -/

/-- The call `SetBase (network, mask)` with the default first host address
`0.0.0.1`. -/
def Ipv4AddressHelper.SetBase ( _h : Ipv4AddressHelper) (network mask : Nat) (w : World) :
    Ipv4AddressHelper × World :=
  let shift := NumAddressBits 32 mask
  ({ network := network >>> shift, mask := mask, address := 1, shift := shift,
     max := (1 <<< shift) - 2 },
   { w with setBaseLog := w.setBaseLog ++ [{ base := network, mask := mask }] })

/-- The member `NewAddress`: the next address of the block, or an error when
the block is exhausted (ns-3 aborts with "Address overflow"). -/
def Ipv4AddressHelper.NewAddress (h : Ipv4AddressHelper) :
    Except Error (Nat × Ipv4AddressHelper) :=
  if h.address ≤ h.max then
    .ok ((h.network <<< h.shift) ||| h.address, { h with address := h.address + 1 })
  else .error .addressOverflow

/-- The loop of `Assign`: one new address per device, in container order. -/
def Ipv4AddressHelper.assignEach (h : Ipv4AddressHelper) :
    NetDeviceContainer → Except Error (Ipv4InterfaceContainer × Ipv4AddressHelper)
  | [] => .ok ([], h)
  | d :: ds =>
    match h.NewAddress with
    | .error e => .error e
    | .ok (a, h1) =>
      match Ipv4AddressHelper.assignEach h1 ds with
      | .error e => .error e
      | .ok (is, h2) => .ok ({ device := d, address := a, mask := h.mask } :: is, h2)

/-- The call `Assign (c)`. -/
def Ipv4AddressHelper.Assign (h : Ipv4AddressHelper) (c : NetDeviceContainer) (w : World) :
    Except Error (Ipv4InterfaceContainer × Ipv4AddressHelper × World) :=
  match h.assignEach c with
  | .error e => .error e
  | .ok (is, h1) =>
    .ok (is, h1, { w with assignLog := w.assignLog ++ [c],
                          interfaces := w.interfaces ++ is })

/-- The call `GetAddress (i)`; an error when `i` is out of range. -/
def Ipv4InterfaceContainer.GetAddress (ic : Ipv4InterfaceContainer) (i : Nat) :
    Except Error Nat :=
  match ic.get? i with
  | some x => .ok x.address
  | none => .error .indexOutOfRange

/-- The node owning an assigned address, if any. -/
def World.ownerOf (w : World) (a : Nat) : Option NodeId :=
  (w.interfaces.find? (fun x => x.address == a)).map (fun x => x.device.node)

/-! ## Application helpers -/

/-- Setting one attribute of an object factory: an earlier value of the same
attribute is dropped and the new one is appended. -/
def setAttr (l : List (String × AttributeValue)) (name : String) (v : AttributeValue) :
    List (String × AttributeValue) :=
  l.filter (fun p => p.1 != name) ++ [(name, v)]

/-- The call `helper.SetAttribute (name, v)`. -/
def ApplicationHelper.SetAttribute (h : ApplicationHelper) (name : String)
    (v : AttributeValue) : ApplicationHelper :=
  { h with attributes := setAttr h.attributes name v }

/-- The value of an attribute of a helper, if it was set. -/
def ApplicationHelper.attribute (h : ApplicationHelper) (name : String) :
    Option AttributeValue :=
  (h.attributes.find? (fun p => p.1 == name)).map (fun p => p.2)

/-- The value of an attribute of an installed application, if it was set. -/
def Application.attribute (a : Application) (name : String) : Option AttributeValue :=
  (a.attributes.find? (fun p => p.1 == name)).map (fun p => p.2)

/-- The constructor `UdpEchoServerHelper (port)`. -/
def UdpEchoServerHelper (port : Nat) : ApplicationHelper :=
  { typeId := "ns3::UdpEchoServer", attributes := [("Port", .uinteger port)] }

/-- The constructor `UdpEchoClientHelper (address, port)`. -/
def UdpEchoClientHelper (address : Nat) (port : Nat) : ApplicationHelper :=
  { typeId := "ns3::UdpEchoClient",
    attributes := [("RemoteAddress", .ipv4Address address), ("RemotePort", .uinteger port)] }

/-- The constructor `OnOffHelper (protocol, address)`. -/
def OnOffHelper (protocol : String) (address : AttributeValue) : ApplicationHelper :=
  { typeId := "ns3::OnOffApplication",
    attributes := [("Protocol", .string protocol), ("Remote", address)] }

/-- The call `OnOffHelper::SetConstantRate (dataRate)` with the default
packet size 512. -/
def OnOffHelper.SetConstantRate (h : ApplicationHelper) (dataRate : String) :
    ApplicationHelper :=
  (((h.SetAttribute "OnTime" (.string "ns3::ConstantRandomVariable[Constant=1000]")).SetAttribute
    "OffTime" (.string "ns3::ConstantRandomVariable[Constant=0]")).SetAttribute
    "DataRate" (.string dataRate)).SetAttribute "PacketSize" (.uinteger 512)

/-- The constructor `PacketSinkHelper (protocol, address)`. -/
def PacketSinkHelper (protocol : String) (address : AttributeValue) : ApplicationHelper :=
  { typeId := "ns3::PacketSink",
    attributes := [("Protocol", .string protocol), ("Local", address)] }

/-- The constructor `BulkSendHelper (protocol, address)`. -/
def BulkSendHelper (protocol : String) (address : AttributeValue) : ApplicationHelper :=
  { typeId := "ns3::BulkSendApplication",
    attributes := [("Protocol", .string protocol), ("Remote", address)] }

/-- The call `helper.Install (node)`: one application with the helper's
current attributes is created on the node. -/
def ApplicationHelper.Install (h : ApplicationHelper) (node : NodeId) (w : World) :
    ApplicationContainer × World :=
  ([w.applications.length],
   { w with applications := w.applications ++
      [{ typeId := h.typeId, node := node, attributes := h.attributes,
         startTime := none, stopTime := none }] })

/-- Update of the application with handle `i`. -/
def World.updateApp (w : World) (i : Nat) (f : Application → Application) : World :=
  { w with applications := w.applications.modify f i }

/-- The call `apps.Start (t)`: every application of the container gets start
time `t`, and its start event is registered. -/
def ApplicationContainer.Start (apps : ApplicationContainer) (t : Time) (w : World) : World :=
  apps.foldl
    (fun w i =>
      { w.updateApp i (fun a => { a with startTime := some t }) with
        schedule := w.schedule ++ [{ fireTime := t, target := i, action := .StartEndpoint }] })
    w

/-- The call `apps.Stop (t)`. -/
def ApplicationContainer.Stop (apps : ApplicationContainer) (t : Time) (w : World) : World :=
  apps.foldl
    (fun w i =>
      { w.updateApp i (fun a => { a with stopTime := some t }) with
        schedule := w.schedule ++ [{ fireTime := t, target := i, action := .StopEndpoint }] })
    w

/-- The call `Simulator::Stop (t)`. -/
def Simulator.Stop (t : Time) (w : World) : World :=
  { w with simulationEnd := some t }

/-- The call `Simulator::Schedule (t, &Ipv4::SetDown, ipv4, ifIndex)` (or
`&Ipv4::SetUp`): an interface event on `target` is registered.  The three
scripts contain such calls only inside comments. -/
def Simulator.Schedule (t : Time) (target : Nat) (action : Action) (w : World) : World :=
  { w with schedule := w.schedule ++ [{ fireTime := t, target := target, action := action }] }

/-- The calls `anim.SetConstantPosition (node, x, y)` and
`model->SetPosition (Vector (x, y, 0))`. -/
def SetConstantPosition (node : NodeId) (x y : Int) (w : World) : World :=
  { w with positions := w.positions ++ [(node, x, y)] }

/-! ## wirelesslatest.cc -/

namespace wirelesslatest

/-- The variables of `main` at its end, with the simulator state. -/
structure Result where
  nodes : NodeContainer
  csmaNode1 : NodeContainer
  csmaNode2 : NodeContainer
  wifiStaNodes : NodeContainer
  wifiApNode : NodeContainer
  device1 : NetDeviceContainer
  device2 : NetDeviceContainer
  device3 : NetDeviceContainer
  device4 : NetDeviceContainer
  device5 : NetDeviceContainer
  device6 : NetDeviceContainer
  device7 : NetDeviceContainer
  device8 : NetDeviceContainer
  interface1 : Ipv4InterfaceContainer
  interface2 : Ipv4InterfaceContainer
  interface3 : Ipv4InterfaceContainer
  interface6 : Ipv4InterfaceContainer
  interface4 : Ipv4InterfaceContainer
  interface5 : Ipv4InterfaceContainer
  echoServer : ApplicationHelper
  echoClient : ApplicationHelper
  serverApps : ApplicationContainer
  clientApps : ApplicationContainer
  world : World
  deriving DecidableEq, Repr, Inhabited

/-- The function `main` of `wirelesslatest.cc`.

Line 23 declares `CommandLine cmd (_FILE_)`, with single underscores.  No
file of the repository declares `_FILE_` and the language does not predefine
it (the predefined name is `__FILE__`, which the two other scripts pass), so
what the identifier denotes is decided by the build and is the parameter
`_FILE_` here: `none` for the sources as committed, built with no further
definition, and `some f` for a build that defines `_FILE_` as `f`, for
example with `-D_FILE_=__FILE__`.  With `none` line 23 stops the build and
nothing below it runs. -/
def main (_FILE_ : Option String) : Except Error Result := do
  let _cmd ← CommandLine _FILE_
  let w := World.init
  let nodes : NodeContainer := []
  let (nodes, w) := nodes.Create 13 w
  let csmaNode1 : NodeContainer := []
  let csmaNode2 : NodeContainer := []
  let csmaNode1 := csmaNode1.Add (← nodes.Get 0)
  let csmaNode1 := csmaNode1.Add (← nodes.Get 1)
  let csmaNode1 := csmaNode1.Add (← nodes.Get 2)
  let csmaNode2 := csmaNode2.Add (← nodes.Get 10)
  let csmaNode2 := csmaNode2.Add (← nodes.Get 11)
  let csmaNode2 := csmaNode2.Add (← nodes.Get 12)
  let wifiStaNodes : NodeContainer := []
  let wifiStaNodes := wifiStaNodes.Add (← nodes.Get 4)
  let wifiStaNodes := wifiStaNodes.Add (← nodes.Get 5)
  let wifiStaNodes := wifiStaNodes.Add (← nodes.Get 6)
  let wifiStaNodes := wifiStaNodes.Add (← nodes.Get 7)
  let wifiStaNodes := wifiStaNodes.Add (← nodes.Get 8)
  let wifiApNode : NodeContainer := [← nodes.Get 3]
  let wifiApNode := wifiApNode.Add (← nodes.Get 9)
  -- devices
  let device7 : NetDeviceContainer := []
  let device8 : NetDeviceContainer := []
  let (device1, w) := CsmaHelper.Install csmaNode1 w
  let (device2, w) := PointToPointHelper.Install (← nodes.Get 2) (← nodes.Get 3) w
  let (device3, w) := WifiHelper.Install wifiStaNodes w
  let (device4, w) := PointToPointHelper.Install (← nodes.Get 9) (← nodes.Get 10) w
  let (device5, w) := CsmaHelper.Install csmaNode2 w
  let (device6, w) := WifiHelper.Install wifiApNode w
  -- protocol stack
  let w := InternetStackHelper.Install nodes w
  -- addresses
  let address : Ipv4AddressHelper := {}
  let (address, w) := address.SetBase (ipv4 10 1 1 0) (ipv4 255 255 255 0) w
  let (interface1, address, w) ← address.Assign device1 w
  let (address, w) := address.SetBase (ipv4 10 1 2 0) (ipv4 255 255 255 0) w
  let (interface2, address, w) ← address.Assign device2 w
  let (address, w) := address.SetBase (ipv4 10 1 3 0) (ipv4 255 255 255 0) w
  let (interface3, address, w) ← address.Assign device3 w
  let (interface6, address, w) ← address.Assign device6 w
  let (address, w) := address.SetBase (ipv4 10 1 4 0) (ipv4 255 255 255 0) w
  let (interface4, address, w) ← address.Assign device4 w
  let (address, w) := address.SetBase (ipv4 10 1 5 0) (ipv4 255 255 255 0) w
  let (interface5, _, w) ← address.Assign device5 w
  -- applications
  let echoServer := UdpEchoServerHelper 9
  let (serverApps, w) := echoServer.Install (← nodes.Get 12) w
  let w := serverApps.Start (Seconds 1) w
  let w := serverApps.Stop (Seconds 10) w
  let echoClient := UdpEchoClientHelper (← interface5.GetAddress 2) 9
  let echoClient := echoClient.SetAttribute "MaxPackets" (.uinteger 10)
  let echoClient := echoClient.SetAttribute "Interval" (.time (Seconds 1))
  let echoClient := echoClient.SetAttribute "PacketSize" (.uinteger 1024)
  let (clientApps, w) := echoClient.Install (← wifiStaNodes.Get 2) w
  let w := clientApps.Start (Seconds 2) w
  let w := clientApps.Stop (Seconds 10) w
  -- positions
  let w := SetConstantPosition (← nodes.Get 0) 0 0 w
  let w := SetConstantPosition (← nodes.Get 1) 40 0 w
  let w := SetConstantPosition (← nodes.Get 2) 0 60 w
  let w := SetConstantPosition (← nodes.Get 3) 50 80 w
  let w := SetConstantPosition (← nodes.Get 4) 70 70 w
  let w := SetConstantPosition (← nodes.Get 5) 90 60 w
  let w := SetConstantPosition (← nodes.Get 6) 90 70 w
  let w := SetConstantPosition (← nodes.Get 7) 90 80 w
  let w := SetConstantPosition (← nodes.Get 8) 110 70 w
  let w := SetConstantPosition (← nodes.Get 9) 115 80 w
  let w := SetConstantPosition (← nodes.Get 10) 200 90 w
  let w := SetConstantPosition (← nodes.Get 11) 200 0 w
  let w := SetConstantPosition (← nodes.Get 12) 240 0 w
  let w := Simulator.Stop (Seconds 40) w
  return { nodes, csmaNode1, csmaNode2, wifiStaNodes, wifiApNode,
           device1, device2, device3, device4, device5, device6, device7, device8,
           interface1, interface2, interface3, interface6, interface4, interface5,
           echoServer, echoClient, serverApps, clientApps, world := w }

end wirelesslatest

/-! ## wired-tcp-udp.cc -/

namespace wired_tcp_udp

/-- The variables of `main` at its end, with the simulator state. -/
structure Result where
  c : NodeContainer
  n1n3 : NodeContainer
  n1n2 : NodeContainer
  n2n6 : NodeContainer
  n245 : NodeContainer
  n5n7 : NodeContainer
  n7n9 : NodeContainer
  n9n10 : NodeContainer
  n10n11 : NodeContainer
  n7n8 : NodeContainer
  n8n10 : NodeContainer
  d1d2 : NetDeviceContainer
  d1d3 : NetDeviceContainer
  d2d6 : NetDeviceContainer
  d5d7 : NetDeviceContainer
  d7d9 : NetDeviceContainer
  d9d10 : NetDeviceContainer
  d8d10 : NetDeviceContainer
  d245 : NetDeviceContainer
  d10d11 : NetDeviceContainer
  d7d8 : NetDeviceContainer
  i1i2 : Ipv4InterfaceContainer
  i1i3 : Ipv4InterfaceContainer
  i2i6 : Ipv4InterfaceContainer
  i5i7 : Ipv4InterfaceContainer
  i7i9 : Ipv4InterfaceContainer
  i8i10 : Ipv4InterfaceContainer
  i9i10 : Ipv4InterfaceContainer
  i245 : Ipv4InterfaceContainer
  i10i11 : Ipv4InterfaceContainer
  port : Nat
  onoff : ApplicationHelper
  sink : ApplicationHelper
  sinkHelper : ApplicationHelper
  clientHelper : ApplicationHelper
  apps : ApplicationContainer
  serverApps : ApplicationContainer
  clientApps : ApplicationContainer
  world : World
  deriving DecidableEq, Repr, Inhabited

/-- The function `main` of `wired-tcp-udp.cc`.  The command-line options of
the script only select logging and a routing default, so `main` has no
argument here.  Every `Simulator::Schedule` line of the source is commented
out, so no such call appears. -/
def main : Except Error Result := do
  let w := World.init
  let c : NodeContainer := []
  let (c, w) := c.Create 11 w
  let n1n3 : NodeContainer := [← c.Get 0, ← c.Get 2]
  let n1n2 : NodeContainer := [← c.Get 0, ← c.Get 1]
  let n2n6 : NodeContainer := [← c.Get 1, ← c.Get 5]
  let n245 : NodeContainer := [← c.Get 1, ← c.Get 3, ← c.Get 4]
  let n5n7 : NodeContainer := [← c.Get 4, ← c.Get 6]
  let n7n9 : NodeContainer := [← c.Get 6, ← c.Get 8]
  let n9n10 : NodeContainer := [← c.Get 8, ← c.Get 9]
  let n10n11 : NodeContainer := [← c.Get 9, ← c.Get 10]
  let n7n8 : NodeContainer := [← c.Get 6, ← c.Get 7]
  let n8n10 : NodeContainer := [← c.Get 7, ← c.Get 9]
  let w := InternetStackHelper.Install c w
  -- channels
  let (d1d2, w) ← PointToPointHelper.InstallContainer n1n2 w
  let (d1d3, w) ← PointToPointHelper.InstallContainer n1n3 w
  let (d2d6, w) ← PointToPointHelper.InstallContainer n2n6 w
  let (d5d7, w) ← PointToPointHelper.InstallContainer n5n7 w
  let (d7d9, w) ← PointToPointHelper.InstallContainer n7n9 w
  let (d9d10, w) ← PointToPointHelper.InstallContainer n9n10 w
  let (d8d10, w) ← PointToPointHelper.InstallContainer n8n10 w
  let (d245, w) := CsmaHelper.Install n245 w
  let (d10d11, w) := CsmaHelper.Install n10n11 w
  let (d7d8, w) := CsmaHelper.Install n7n8 w
  -- addresses
  let ipv4h : Ipv4AddressHelper := {}
  let (ipv4h, w) := ipv4h.SetBase (ipv4 10 1 1 0) (ipv4 255 255 255 0) w
  let (i1i2, ipv4h, w) ← ipv4h.Assign d1d2 w
  let (ipv4h, w) := ipv4h.SetBase (ipv4 10 1 2 0) (ipv4 255 255 255 0) w
  let (i1i3, ipv4h, w) ← ipv4h.Assign d1d3 w
  let (ipv4h, w) := ipv4h.SetBase (ipv4 10 1 3 0) (ipv4 255 255 255 0) w
  let (i2i6, ipv4h, w) ← ipv4h.Assign d2d6 w
  let (ipv4h, w) := ipv4h.SetBase (ipv4 10 1 4 0) (ipv4 255 255 255 0) w
  let (i5i7, ipv4h, w) ← ipv4h.Assign d5d7 w
  let (ipv4h, w) := ipv4h.SetBase (ipv4 10 1 5 0) (ipv4 255 255 255 0) w
  let (i7i9, ipv4h, w) ← ipv4h.Assign d7d9 w
  let (ipv4h, w) := ipv4h.SetBase (ipv4 10 1 7 0) (ipv4 255 255 255 0) w
  let (i8i10, ipv4h, w) ← ipv4h.Assign d8d10 w
  let (ipv4h, w) := ipv4h.SetBase (ipv4 10 1 8 0) (ipv4 255 255 255 0) w
  let (i9i10, ipv4h, w) ← ipv4h.Assign d9d10 w
  let (ipv4h, w) := ipv4h.SetBase (ipv4 10 250 1 0) (ipv4 255 255 255 0) w
  let (i245, ipv4h, w) ← ipv4h.Assign d245 w
  let (ipv4h, w) := ipv4h.SetBase (ipv4 10 250 2 0) (ipv4 255 255 255 0) w
  let (i10i11, _, w) ← ipv4h.Assign d10d11 w
  -- applications
  let port : Nat := 9
  let onoff := OnOffHelper "ns3::UdpSocketFactory" (.inetSocketAddress (← i1i3.GetAddress 1) port)
  let onoff := OnOffHelper.SetConstantRate onoff "2kbps"
  let onoff := onoff.SetAttribute "PacketSize" (.uinteger 50)
  let (apps, w) := onoff.Install (← c.Get 9) w
  let w := apps.Start (Seconds 1) w
  let w := apps.Stop (Seconds 3) w
  let sink := PacketSinkHelper "ns3::UdpSocketFactory" (.anySocketAddress port)
  let (apps, w) := sink.Install (← c.Get 9) w
  let w := apps.Start (Seconds 1) w
  let w := apps.Stop (Seconds 3) w
  let sinkHelper := PacketSinkHelper "ns3::TcpSocketFactory" (.anySocketAddress port)
  let (serverApps, w) := sinkHelper.Install (← c.Get 5) w
  let w := serverApps.Start (Seconds 5) w
  let w := serverApps.Stop (Seconds 10) w
  let clientHelper :=
    BulkSendHelper "ns3::TcpSocketFactory" (.inetSocketAddress (← i2i6.GetAddress 1) port)
  let clientHelper := clientHelper.SetAttribute "MaxBytes" (.uinteger 0)
  let (clientApps, w) := clientHelper.Install (← c.Get 2) w
  let w := clientApps.Start (Seconds 5) w
  let w := clientApps.Stop (Seconds 10) w
  -- animation
  let w := SetConstantPosition (← c.Get 0) 0 0 w
  let w := SetConstantPosition (← c.Get 1) 20 0 w
  let w := SetConstantPosition (← c.Get 2) 0 20 w
  let w := SetConstantPosition (← c.Get 5) 20 20 w
  let w := SetConstantPosition (← c.Get 3) 40 5 w
  let w := SetConstantPosition (← c.Get 4) 60 0 w
  let w := SetConstantPosition (← c.Get 6) 80 0 w
  let w := SetConstantPosition (← c.Get 7) 100 20 w
  let w := SetConstantPosition (← c.Get 8) 100 (-20) w
  let w := SetConstantPosition (← c.Get 9) 120 0 w
  let w := SetConstantPosition (← c.Get 10) 140 0 w
  return { c, n1n3, n1n2, n2n6, n245, n5n7, n7n9, n9n10, n10n11, n7n8, n8n10,
           d1d2, d1d3, d2d6, d5d7, d7d9, d9d10, d8d10, d245, d10d11, d7d8,
           i1i2, i1i3, i2i6, i5i7, i7i9, i8i10, i9i10, i245, i10i11,
           port, onoff, sink, sinkHelper, clientHelper,
           apps, serverApps, clientApps, world := w }

end wired_tcp_udp

/-! ## midterm.cc -/

namespace midterm

/-- The variables of `main` after node creation, link installation and
protocol stack installation (lines 35 to 102), with the simulator state. -/
structure Topology where
  nCsma : Nat
  p2pNodes1 : NodeContainer
  p2pNodes2 : NodeContainer
  csmaNodes1 : NodeContainer
  csmaNodes2 : NodeContainer
  d1 : NetDeviceContainer
  d2 : NetDeviceContainer
  d3 : NetDeviceContainer
  d4 : NetDeviceContainer
  d5 : NetDeviceContainer
  cd1 : NetDeviceContainer
  cd2 : NetDeviceContainer
  world : World
  deriving DecidableEq, Repr, Inhabited

/-- Lines 35 to 102 of `main`: nodes, links and protocol stacks, for the
command-line value `nCsma`. -/
def topology (nCsma : Nat) : Except Error Topology := do
  let w := World.init
  let nCsma := if nCsma == 0 then 1 else nCsma
  let p2pNodes1 : NodeContainer := []
  let (p2pNodes1, w) := p2pNodes1.Create 4 w
  let p2pNodes2 : NodeContainer := []
  let (p2pNodes2, w) := p2pNodes2.Create 3 w
  let csmaNodes1 : NodeContainer := []
  let csmaNodes1 := csmaNodes1.Add (← p2pNodes1.Get 2)
  let (csmaNodes1, w) := csmaNodes1.Create nCsma w
  let csmaNodes1 := csmaNodes1.Add (← p2pNodes2.Get 0)
  let csmaNodes2 : NodeContainer := []
  let csmaNodes2 := csmaNodes2.Add (← p2pNodes2.Get 2)
  let (csmaNodes2, w) := csmaNodes2.Create 2 w
  -- links
  let (d1, w) := PointToPointHelper.Install (← p2pNodes1.Get 0) (← p2pNodes1.Get 2) w
  let (d2, w) := PointToPointHelper.Install (← p2pNodes1.Get 1) (← p2pNodes1.Get 2) w
  let (d3, w) := PointToPointHelper.Install (← p2pNodes1.Get 2) (← p2pNodes1.Get 3) w
  let (d4, w) := PointToPointHelper.Install (← p2pNodes2.Get 0) (← p2pNodes2.Get 1) w
  let (d5, w) := PointToPointHelper.Install (← p2pNodes2.Get 1) (← p2pNodes2.Get 2) w
  let (cd1, w) := CsmaHelper.Install csmaNodes1 w
  let (cd2, w) := CsmaHelper.Install csmaNodes2 w
  -- protocol stacks
  let w := InternetStackHelper.Install [← p2pNodes1.Get 0] w
  let w := InternetStackHelper.Install [← p2pNodes1.Get 1] w
  let w := InternetStackHelper.Install [← p2pNodes1.Get 3] w
  let w := InternetStackHelper.Install csmaNodes1 w
  let w := InternetStackHelper.Install [← p2pNodes2.Get 1] w
  let w := InternetStackHelper.Install csmaNodes2 w
  return { nCsma, p2pNodes1, p2pNodes2, csmaNodes1, csmaNodes2,
           d1, d2, d3, d4, d5, cd1, cd2, world := w }

/-- The variables of `main` after the addressing block (lines 104 to 125),
with the simulator state. -/
structure Addressing where
  p2pInterfaces1 : Ipv4InterfaceContainer
  p2pInterfaces2 : Ipv4InterfaceContainer
  p2pInterfaces3 : Ipv4InterfaceContainer
  csmaInterfaces1 : Ipv4InterfaceContainer
  p2pInterfaces4 : Ipv4InterfaceContainer
  p2pInterfaces5 : Ipv4InterfaceContainer
  csmaInterfaces2 : Ipv4InterfaceContainer
  world : World
  deriving DecidableEq, Repr, Inhabited

/-- Lines 104 to 125 of `main`: the addressing block.  A container that the
source declares and then assigns is bound once; `p2pInterfaces2` and
`p2pInterfaces3` are assigned twice, `p2pInterfaces4` and `p2pInterfaces5`
are declared and never assigned. -/
def addressing (t : Topology) : Except Error Addressing := do
  let w := t.world
  let address : Ipv4AddressHelper := {}
  let (address, w) := address.SetBase (ipv4 10 1 1 0) (ipv4 255 255 255 0) w
  let (p2pInterfaces1, address, w) ← address.Assign t.d1 w
  let (address, w) := address.SetBase (ipv4 10 1 2 0) (ipv4 255 255 255 0) w
  let (p2pInterfaces2, address, w) ← address.Assign t.d2 w
  let (address, w) := address.SetBase (ipv4 10 1 3 0) (ipv4 255 255 255 0) w
  let (p2pInterfaces3, address, w) ← address.Assign t.d3 w
  let (address, w) := address.SetBase (ipv4 10 1 4 0) (ipv4 255 255 255 0) w
  let (csmaInterfaces1, address, w) ← address.Assign t.cd1 w
  let (address, w) := address.SetBase (ipv4 10 1 5 0) (ipv4 255 255 255 0) w
  let p2pInterfaces4 : Ipv4InterfaceContainer := []
  let (p2pInterfaces2, address, w) ← address.Assign t.d4 w
  let (address, w) := address.SetBase (ipv4 10 1 6 0) (ipv4 255 255 255 0) w
  let p2pInterfaces5 : Ipv4InterfaceContainer := []
  let (p2pInterfaces3, address, w) ← address.Assign t.d5 w
  let (address, w) := address.SetBase (ipv4 10 1 7 0) (ipv4 255 255 255 0) w
  let (csmaInterfaces2, _, w) ← address.Assign t.cd2 w
  return { p2pInterfaces1, p2pInterfaces2, p2pInterfaces3, csmaInterfaces1,
           p2pInterfaces4, p2pInterfaces5, csmaInterfaces2, world := w }

/-- The variables of `main` at its end, with the simulator state. -/
structure Result where
  topology : Topology
  addressing : Addressing
  echoServer : ApplicationHelper
  echoClient11 : ApplicationHelper
  echoClient21 : ApplicationHelper
  echoClient1 : ApplicationHelper
  echoClient2 : ApplicationHelper
  source : ApplicationHelper
  sink : ApplicationHelper
  serverApps : ApplicationContainer
  clientApps11 : ApplicationContainer
  clientApps21 : ApplicationContainer
  clientApps1 : ApplicationContainer
  clientApps2 : ApplicationContainer
  sourceApps1 : ApplicationContainer
  sinkApps : ApplicationContainer
  world : World
  deriving DecidableEq, Repr, Inhabited

/-- Lines 127 to 204 of `main`: applications and animation positions, from
the variables left by the topology and addressing blocks. -/
def applications (t : Topology) (a : Addressing) : Except Error Result := do
  let p2pNodes1 := t.p2pNodes1
  let p2pNodes2 := t.p2pNodes2
  let csmaNodes1 := t.csmaNodes1
  let csmaNodes2 := t.csmaNodes2
  let p2pInterfaces1 := a.p2pInterfaces1
  let csmaInterfaces2 := a.csmaInterfaces2
  let w := a.world
  -- applications
  let echoServer := UdpEchoServerHelper 9
  let (serverApps, w) := echoServer.Install (← p2pNodes1.Get 3) w
  let w := serverApps.Start (Seconds 1) w
  let w := serverApps.Stop (Seconds 10) w
  let echoClient11 := UdpEchoClientHelper (← csmaInterfaces2.GetAddress 2) 9
  let echoClient11 := echoClient11.SetAttribute "MaxPackets" (.uinteger 1)
  let echoClient11 := echoClient11.SetAttribute "Interval" (.time (Seconds 1))
  let echoClient11 := echoClient11.SetAttribute "PacketSize" (.uinteger 1024)
  let (clientApps11, w) := echoClient11.Install (← csmaNodes2.Get 2) w
  let w := clientApps11.Start (Seconds 7) w
  let w := clientApps11.Stop (Seconds 12) w
  let echoClient21 := UdpEchoClientHelper (← csmaInterfaces2.GetAddress 2) 9
  let echoClient11 := echoClient11.SetAttribute "MaxPackets" (.uinteger 1)
  let echoClient11 := echoClient11.SetAttribute "Interval" (.time (Seconds 1))
  let echoClient11 := echoClient11.SetAttribute "PacketSize" (.uinteger 1024)
  let (clientApps21, w) := echoClient21.Install (← p2pNodes2.Get 1) w
  let w := clientApps21.Start (Seconds 2) w
  let w := clientApps21.Stop (Seconds 7) w
  let echoClient1 := UdpEchoClientHelper (← p2pInterfaces1.GetAddress 0) 9
  let echoClient1 := echoClient1.SetAttribute "MaxPackets" (.uinteger 1)
  let echoClient1 := echoClient1.SetAttribute "Interval" (.time (Seconds 1))
  let echoClient1 := echoClient1.SetAttribute "PacketSize" (.uinteger 1024)
  let (clientApps1, w) := echoClient1.Install (← p2pNodes1.Get 1) w
  let w := clientApps1.Start (Seconds 12) w
  let w := clientApps1.Stop (Seconds 22) w
  let echoClient2 := UdpEchoClientHelper (← p2pInterfaces1.GetAddress 0) 9
  let echoClient1 := echoClient1.SetAttribute "MaxPackets" (.uinteger 1)
  let echoClient1 := echoClient1.SetAttribute "Interval" (.time (Seconds 1))
  let echoClient1 := echoClient1.SetAttribute "PacketSize" (.uinteger 1024)
  let (clientApps2, w) := echoClient2.Install (← csmaNodes2.Get 2) w
  let w := clientApps2.Start (Seconds 8) w
  let w := clientApps2.Stop (Seconds 12) w
  let source :=
    BulkSendHelper "ns3::TcpSocketFactory" (.inetSocketAddress (← p2pInterfaces1.GetAddress 0) 9)
  let source := source.SetAttribute "MaxBytes" (.uinteger 0)
  let (sourceApps1, w) := source.Install (← p2pNodes1.Get 0) w
  let w := sourceApps1.Start (Seconds 2) w
  let w := sourceApps1.Stop (Seconds 7) w
  let sink := PacketSinkHelper "ns3::TcpSocketFactory" (.anySocketAddress 9)
  let (sinkApps, w) := sink.Install (← p2pNodes1.Get 2) w
  let w := sinkApps.Start (Seconds 2) w
  let w := sinkApps.Stop (Seconds 7) w
  -- animation
  let w := SetConstantPosition (← csmaNodes2.Get 2) 10 5 w
  let w := SetConstantPosition (← csmaNodes2.Get 1) 10 10 w
  let w := SetConstantPosition (← csmaNodes2.Get 0) 10 15 w
  let w := SetConstantPosition (← p2pNodes2.Get 1) 10 20 w
  let w := SetConstantPosition (← csmaNodes1.Get 2) 10 25 w
  let w := SetConstantPosition (← csmaNodes1.Get 1) 10 30 w
  let w := SetConstantPosition (← csmaNodes1.Get 0) 10 35 w
  let w := SetConstantPosition (← p2pNodes1.Get 3) 10 40 w
  let w := SetConstantPosition (← p2pNodes1.Get 0) 5 35 w
  let w := SetConstantPosition (← p2pNodes1.Get 1) 5 40 w
  return { topology := t, addressing := a, echoServer, echoClient11, echoClient21,
           echoClient1, echoClient2, source, sink, serverApps, clientApps11,
           clientApps21, clientApps1, clientApps2, sourceApps1, sinkApps, world := w }

/-- The function `main` of `midterm.cc` for the command-line value `nCsma`
(the `verbose` option only selects logging): the three blocks in sequence. -/
def main (nCsma : Nat) : Except Error Result := do
  let t ← topology nCsma
  let a ← addressing t
  applications t a

end midterm

/-! ## Properties of a finished run -/

/-- The result of a run, or a default value when the run stopped early. -/
def valueOf {α : Type} [Inhabited α] : Except Error α → α
  | .ok r => r
  | .error _ => default

/-- Two blocks have the same mask and different network parts. -/
def AddressBlock.separated (b c : AddressBlock) : Prop :=
  b.mask = c.mask ∧ b.base &&& b.mask ≠ c.base &&& c.mask

instance (b c : AddressBlock) : Decidable (b.separated c) := by
  unfold AddressBlock.separated; infer_instance

/-- First address of a block. -/
def AddressBlock.first (b : AddressBlock) : Nat := b.base &&& b.mask

/-- Last address of a block in the 32-bit address space. -/
def AddressBlock.last (b : AddressBlock) : Nat := b.first + (4294967295 - b.mask)

/-- The intervals `[first, last]` of two blocks do not meet. -/
def AddressBlock.intervalsApart (b c : AddressBlock) : Prop :=
  b.last < c.first ∨ c.last < b.first

instance (b c : AddressBlock) : Decidable (b.intervalsApart c) := by
  unfold AddressBlock.intervalsApart; infer_instance

/-- The blocks of a `SetBase` log are pairwise non-overlapping, both as sets
of 32-bit addresses and as intervals `[first, last]`. -/
def blocksDisjoint (log : List AddressBlock) : Prop :=
  log.Pairwise (fun b c => ¬ b.overlaps c ∧ b.intervalsApart c)

/-- Decidable sufficient condition for `blocksDisjoint`. -/
def blocksSeparated (log : List AddressBlock) : Prop :=
  log.Pairwise (fun b c => b.separated c ∧ b.intervalsApart c)

instance (log : List AddressBlock) : Decidable (blocksSeparated log) := by
  unfold blocksSeparated; infer_instance

/-- The mask `255.255.255.0` used by every `SetBase` call of the scripts. -/
def mask24 : Nat := ipv4 255 255 255 0

/-- The applications held by an application container. -/
def World.appsOf (w : World) (apps : ApplicationContainer) : List Application :=
  apps.filterMap (fun i => w.applications.get? i)

/-- The application has a start and a stop time with `0 ≤ start < stop`. -/
def Application.windowValid (a : Application) : Prop :=
  ∃ t1 t2, a.startTime = some t1 ∧ a.stopTime = some t2 ∧ 0 ≤ t1 ∧ t1 < t2

/-- Decidable form of `Application.windowValid`. -/
def Application.windowCheck (a : Application) : Bool :=
  match a.startTime, a.stopTime with
  | some t1, some t2 => decide (0 ≤ t1) && decide (t1 < t2)
  | _, _ => false

/-- Every start event and stop event registered for the same application are
ordered: the start time is non-negative and strictly before the stop time. -/
def startStopOrdered (s : List ScheduledEvent) : Prop :=
  ∀ e1 ∈ s, ∀ e2 ∈ s, e1.action = .StartEndpoint → e2.action = .StopEndpoint →
    e1.target = e2.target → 0 ≤ e1.fireTime ∧ e1.fireTime < e2.fireTime

instance (s : List ScheduledEvent) : Decidable (startStopOrdered s) := by
  unfold startStopOrdered; infer_instance

/-- Every installed application has a valid lifecycle window, and every
start/stop pair of events on one application is ordered. -/
def lifecyclesValid (w : World) : Prop :=
  (∀ a ∈ w.applications, a.windowValid) ∧ startStopOrdered w.schedule

/-- Decidable form of `lifecyclesValid`. -/
def lifecyclesCheck (w : World) : Prop :=
  w.applications.all Application.windowCheck = true ∧ startStopOrdered w.schedule

instance (w : World) : Decidable (lifecyclesCheck w) := by
  unfold lifecyclesCheck; infer_instance

/-- Every event fires at a non-negative time strictly before `stop`. -/
def firesBefore (s : List ScheduledEvent) (stop : Time) : Prop :=
  ∀ e ∈ s, 0 ≤ e.fireTime ∧ e.fireTime < stop

instance (s : List ScheduledEvent) (stop : Time) : Decidable (firesBefore s stop) := by
  unfold firesBefore; infer_instance

/-- Every stop event has a start event on the same target with a strictly
earlier fire time. -/
def stopsPreceded (s : List ScheduledEvent) : Prop :=
  ∀ e ∈ s, e.action = .StopEndpoint →
    ∃ e1 ∈ s, e1.action = .StartEndpoint ∧ e1.target = e.target ∧ e1.fireTime < e.fireTime

instance (s : List ScheduledEvent) : Decidable (stopsPreceded s) := by
  unfold stopsPreceded; infer_instance

/-- The link arity rule for one `Install` call: pairwise distinct nodes, one
device per node, at least two nodes, and exactly two for point-to-point. -/
def LinkInstall.arityValid (l : LinkInstall) : Prop :=
  l.nodes.Nodup ∧ l.devices.map (fun d => d.node) = l.nodes ∧ 2 ≤ l.nodes.length ∧
    (l.kind = .pointToPoint → l.nodes.length = 2)

instance (l : LinkInstall) : Decidable l.arityValid := by
  unfold LinkInstall.arityValid; infer_instance

/-- Every device container returned by a link `Install` call was passed to
an `Assign` call. -/
def World.everyLinkAddressed (w : World) : Prop :=
  ∀ l ∈ w.installs, l.devices ∈ w.assignLog

instance (w : World) : Decidable w.everyLinkAddressed := by
  unfold World.everyLinkAddressed; infer_instance

/-! ## Closed forms used in the proofs -/

/-- The state of the address helper right after `SetBase (network, mask)`. -/
def helperAt (network mask : Nat) : Ipv4AddressHelper :=
  (Ipv4AddressHelper.SetBase {} network mask World.init).1

/-- The interfaces that `Assign` produces for the devices `ds` when the block
of `h` has room for them: consecutive addresses from `h.address` on. -/
def assignedInterfaces (h : Ipv4AddressHelper) (ds : NetDeviceContainer) :
    Ipv4InterfaceContainer :=
  (ds.enumFrom h.address).map
    (fun p => { device := p.2, address := (h.network <<< h.shift) ||| p.1, mask := h.mask })

/-- The application that `h.Install (node)` creates, after `Start (t1)` and
`Stop (t2)` on its container. -/
def installed (h : ApplicationHelper) (node : NodeId) (t1 t2 : Time) : Application :=
  { typeId := h.typeId, node := node, attributes := h.attributes,
    startTime := some t1, stopTime := some t2 }

namespace midterm

/-- The value of `nCsma` after line 35: `nCsma == 0 ? 1 : nCsma`. -/
def normalised (nCsma : Nat) : Nat := if nCsma = 0 then 1 else nCsma

/-- Closed form of the variables left by the addressing block of `main` when
every device container fits its block (`addressing_eq`). -/
def addressed (t : Topology) : Addressing :=
  { p2pInterfaces1 := assignedInterfaces (helperAt (ipv4 10 1 1 0) mask24) t.d1,
    p2pInterfaces2 := assignedInterfaces (helperAt (ipv4 10 1 5 0) mask24) t.d4,
    p2pInterfaces3 := assignedInterfaces (helperAt (ipv4 10 1 6 0) mask24) t.d5,
    csmaInterfaces1 := assignedInterfaces (helperAt (ipv4 10 1 4 0) mask24) t.cd1,
    p2pInterfaces4 := [],
    p2pInterfaces5 := [],
    csmaInterfaces2 := assignedInterfaces (helperAt (ipv4 10 1 7 0) mask24) t.cd2,
    world :=
      { t.world with
        setBaseLog := t.world.setBaseLog ++
          [⟨ipv4 10 1 1 0, mask24⟩, ⟨ipv4 10 1 2 0, mask24⟩, ⟨ipv4 10 1 3 0, mask24⟩,
           ⟨ipv4 10 1 4 0, mask24⟩, ⟨ipv4 10 1 5 0, mask24⟩, ⟨ipv4 10 1 6 0, mask24⟩,
           ⟨ipv4 10 1 7 0, mask24⟩],
        assignLog := t.world.assignLog ++ [t.d1, t.d2, t.d3, t.cd1, t.d4, t.d5, t.cd2],
        interfaces := t.world.interfaces ++
          (assignedInterfaces (helperAt (ipv4 10 1 1 0) mask24) t.d1 ++
           assignedInterfaces (helperAt (ipv4 10 1 2 0) mask24) t.d2 ++
           assignedInterfaces (helperAt (ipv4 10 1 3 0) mask24) t.d3 ++
           assignedInterfaces (helperAt (ipv4 10 1 4 0) mask24) t.cd1 ++
           assignedInterfaces (helperAt (ipv4 10 1 5 0) mask24) t.d4 ++
           assignedInterfaces (helperAt (ipv4 10 1 6 0) mask24) t.d5 ++
           assignedInterfaces (helperAt (ipv4 10 1 7 0) mask24) t.cd2) } }

/-- The three attribute settings that the script applies to an echo client
helper: `MaxPackets`, `Interval` and `PacketSize`. -/
def configured (h : ApplicationHelper) : ApplicationHelper :=
  ((h.SetAttribute "MaxPackets" (.uinteger 1)).SetAttribute "Interval"
    (.time (Seconds 1))).SetAttribute "PacketSize" (.uinteger 1024)

/-- Closed form of the result of the applications block of `main`, in terms
of the nodes and addresses that its `Get` and `GetAddress` calls return
(`applications_eq`). -/
def applied (t : Topology) (a : Addressing) (x0 x1 x2 x3 y1 c0 c1 c2 z0 z1 z2 : NodeId)
    (addrP addrC : Nat) : Result :=
  { topology := t,
    addressing := a,
    echoServer := UdpEchoServerHelper 9,
    echoClient11 := configured (configured (UdpEchoClientHelper addrC 9)),
    echoClient21 := UdpEchoClientHelper addrC 9,
    echoClient1 := configured (configured (UdpEchoClientHelper addrP 9)),
    echoClient2 := UdpEchoClientHelper addrP 9,
    source :=
      (BulkSendHelper "ns3::TcpSocketFactory" (.inetSocketAddress addrP 9)).SetAttribute
        "MaxBytes" (.uinteger 0),
    sink := PacketSinkHelper "ns3::TcpSocketFactory" (.anySocketAddress 9),
    serverApps := [0],
    clientApps11 := [1],
    clientApps21 := [2],
    clientApps1 := [3],
    clientApps2 := [4],
    sourceApps1 := [5],
    sinkApps := [6],
    world :=
      { a.world with
        applications :=
          [installed (UdpEchoServerHelper 9) x3 (Seconds 1) (Seconds 10),
           installed (configured (UdpEchoClientHelper addrC 9)) c2 (Seconds 7) (Seconds 12),
           installed (UdpEchoClientHelper addrC 9) y1 (Seconds 2) (Seconds 7),
           installed (configured (UdpEchoClientHelper addrP 9)) x1 (Seconds 12) (Seconds 22),
           installed (UdpEchoClientHelper addrP 9) c2 (Seconds 8) (Seconds 12),
           installed ((BulkSendHelper "ns3::TcpSocketFactory"
             (.inetSocketAddress addrP 9)).SetAttribute "MaxBytes" (.uinteger 0))
             x0 (Seconds 2) (Seconds 7),
           installed (PacketSinkHelper "ns3::TcpSocketFactory" (.anySocketAddress 9))
             x2 (Seconds 2) (Seconds 7)],
        schedule :=
          [⟨Seconds 1, 0, .StartEndpoint⟩, ⟨Seconds 10, 0, .StopEndpoint⟩,
           ⟨Seconds 7, 1, .StartEndpoint⟩, ⟨Seconds 12, 1, .StopEndpoint⟩,
           ⟨Seconds 2, 2, .StartEndpoint⟩, ⟨Seconds 7, 2, .StopEndpoint⟩,
           ⟨Seconds 12, 3, .StartEndpoint⟩, ⟨Seconds 22, 3, .StopEndpoint⟩,
           ⟨Seconds 8, 4, .StartEndpoint⟩, ⟨Seconds 12, 4, .StopEndpoint⟩,
           ⟨Seconds 2, 5, .StartEndpoint⟩, ⟨Seconds 7, 5, .StopEndpoint⟩,
           ⟨Seconds 2, 6, .StartEndpoint⟩, ⟨Seconds 7, 6, .StopEndpoint⟩],
        positions := a.world.positions ++
          [(c2, 10, 5), (c1, 10, 10), (c0, 10, 15), (y1, 10, 20), (z2, 10, 25),
           (z1, 10, 30), (z0, 10, 35), (x3, 10, 40), (x0, 5, 35), (x1, 5, 40)] } }

/-- The variables at the end of `main` for the command-line value `nCsma`,
when the run completes (`main_eq`). -/
def finalOf (nCsma : Nat) : Result :=
  applied (valueOf (topology nCsma)) (addressed (valueOf (topology nCsma)))
    0 1 2 3 5 6 (7 + normalised nCsma) (7 + normalised nCsma + 1)
    2 7 (if normalised nCsma = 1 then 4 else 8) (ipv4 10 1 1 1) (ipv4 10 1 7 3)

end midterm

/-! ## Evaluation lemmas -/

theorem Completes.imp {α : Type} {x : Except Error α} {P Q : α → Prop}
    (h : Completes x P) (hPQ : ∀ r, P r → Q r) : Completes x Q := by
  obtain ⟨r, hr, hp⟩ := h
  exact ⟨r, hr, hPQ r hp⟩

theorem assignEach_ok (ds : NetDeviceContainer) (h : Ipv4AddressHelper)
    (hlen : h.address + ds.length ≤ h.max + 1) :
    h.assignEach ds =
      .ok (assignedInterfaces h ds, { h with address := h.address + ds.length }) := by
  induction ds generalizing h with
  | nil => simp [Ipv4AddressHelper.assignEach, assignedInterfaces]
  | cons d ds ih =>
    have h1 : h.address ≤ h.max := by simp at hlen; omega
    simp only [Ipv4AddressHelper.assignEach, Ipv4AddressHelper.NewAddress, if_pos h1]
    rw [ih { h with address := h.address + 1 } (by simp at hlen ⊢; omega)]
    simp [assignedInterfaces, List.enumFrom]
    omega

theorem Assign_ok (h : Ipv4AddressHelper) (ds : NetDeviceContainer) (w : World)
    (hlen : h.address + ds.length ≤ h.max + 1) :
    h.Assign ds w =
      .ok (assignedInterfaces h ds, { h with address := h.address + ds.length },
        { w with assignLog := w.assignLog ++ [ds],
                 interfaces := w.interfaces ++ assignedInterfaces h ds }) := by
  simp only [Ipv4AddressHelper.Assign, assignEach_ok ds h hlen]

theorem SetBase_eq (h : Ipv4AddressHelper) (network mask : Nat) (w : World) :
    h.SetBase network mask w =
      (helperAt network mask,
       { w with setBaseLog := w.setBaseLog ++ [{ base := network, mask := mask }] }) := rfl

theorem Assign_24 (a b c : Nat) (ds : NetDeviceContainer) (w : World) (h : ds.length ≤ 254) :
    (helperAt (ipv4 a b c 0) (ipv4 255 255 255 0)).Assign ds w =
      .ok (assignedInterfaces (helperAt (ipv4 a b c 0) (ipv4 255 255 255 0)) ds,
        { helperAt (ipv4 a b c 0) (ipv4 255 255 255 0) with address := 1 + ds.length },
        { w with assignLog := w.assignLog ++ [ds],
                 interfaces := w.interfaces ++
                   assignedInterfaces (helperAt (ipv4 a b c 0) (ipv4 255 255 255 0)) ds }) :=
  Assign_ok _ ds w (by show 1 + ds.length ≤ 254 + 1; omega)

theorem assignedInterfaces_devices (h : Ipv4AddressHelper) (ds : NetDeviceContainer) :
    (assignedInterfaces h ds).map (fun i => i.device) = ds := by
  simp only [assignedInterfaces, List.map_map]
  exact List.enumFrom_map_snd _ _

theorem getAddress_assigned (h : Ipv4AddressHelper) (ds : NetDeviceContainer) (i : Nat)
    (d : NetDevice) (hd : ds.get? i = some d) :
    Ipv4InterfaceContainer.GetAddress (assignedInterfaces h ds) i =
      .ok ((h.network <<< h.shift) ||| (h.address + i)) := by
  simp only [List.get?_eq_getElem?] at hd
  simp [Ipv4InterfaceContainer.GetAddress, assignedInterfaces, List.getElem?_enumFrom, hd]

theorem newDevices_nodes (first : Nat) (nodes : List NodeId) :
    (newDevices first nodes).map (fun d => d.node) = nodes := by
  simp only [newDevices, List.map_map]
  exact List.enum_map_snd _

theorem newDevices_length (first : Nat) (nodes : List NodeId) :
    (newDevices first nodes).length = nodes.length := by
  simp [newDevices]

theorem not_overlaps_of_separated {b c : AddressBlock} (h : b.separated c) :
    ¬ b.overlaps c := by
  rintro ⟨a, _, hb, hc⟩
  unfold AddressBlock.contains at hb hc
  apply h.2
  rw [← hb, ← hc, h.1]

theorem blocksDisjoint_of_separated {log : List AddressBlock} (h : blocksSeparated log) :
    blocksDisjoint log :=
  List.Pairwise.imp (fun hbc => ⟨not_overlaps_of_separated hbc.1, hbc.2⟩) h

theorem windowValid_of_check {a : Application} (h : a.windowCheck = true) :
    a.windowValid := by
  unfold Application.windowCheck at h
  split at h
  · rename_i t1 t2 h1 h2
    simp only [Bool.and_eq_true, decide_eq_true_eq] at h
    exact ⟨t1, t2, h1, h2, h.1, h.2⟩
  · cases h

theorem lifecyclesValid_of_check {w : World} (h : lifecyclesCheck w) : lifecyclesValid w :=
  ⟨fun a ha => windowValid_of_check (List.all_eq_true.mp h.1 a ha), h.2⟩

namespace midterm

theorem topology_eq (nCsma : Nat) : topology nCsma = .ok (valueOf (topology nCsma)) := by
  cases nCsma with
  | zero => rfl
  | succ k => rfl

theorem topology_fields (nCsma : Nat) :
    (valueOf (topology nCsma)).nCsma = normalised nCsma ∧
    (valueOf (topology nCsma)).p2pNodes1 = [0, 1, 2, 3] ∧
    (valueOf (topology nCsma)).p2pNodes2 = [4, 5, 6] ∧
    (valueOf (topology nCsma)).csmaNodes1 = 2 :: (List.range' 7 (normalised nCsma) ++ [4]) ∧
    (valueOf (topology nCsma)).csmaNodes2 =
      [6, 7 + normalised nCsma, 7 + normalised nCsma + 1] ∧
    (valueOf (topology nCsma)).d1 = [⟨0, 0⟩, ⟨1, 2⟩] ∧
    (valueOf (topology nCsma)).d2 = [⟨2, 1⟩, ⟨3, 2⟩] ∧
    (valueOf (topology nCsma)).d3 = [⟨4, 2⟩, ⟨5, 3⟩] ∧
    (valueOf (topology nCsma)).d4 = [⟨6, 4⟩, ⟨7, 5⟩] ∧
    (valueOf (topology nCsma)).d5 = [⟨8, 5⟩, ⟨9, 6⟩] ∧
    (valueOf (topology nCsma)).cd1 =
      newDevices 10 (2 :: (List.range' 7 (normalised nCsma) ++ [4])) ∧
    (valueOf (topology nCsma)).cd2 =
      newDevices (10 + (2 :: (List.range' 7 (normalised nCsma) ++ [4])).length)
        [6, 7 + normalised nCsma, 7 + normalised nCsma + 1] := by
  cases nCsma with
  | zero => exact ⟨rfl, rfl, rfl, rfl, rfl, rfl, rfl, rfl, rfl, rfl, rfl, rfl⟩
  | succ k => exact ⟨rfl, rfl, rfl, rfl, rfl, rfl, rfl, rfl, rfl, rfl, rfl, rfl⟩

theorem topology_world (nCsma : Nat) :
    (valueOf (topology nCsma)).world.applications = [] ∧
    (valueOf (topology nCsma)).world.schedule = [] ∧
    (valueOf (topology nCsma)).world.positions = [] ∧
    (valueOf (topology nCsma)).world.setBaseLog = [] ∧
    (valueOf (topology nCsma)).world.assignLog = [] ∧
    (valueOf (topology nCsma)).world.interfaces = [] ∧
    (valueOf (topology nCsma)).world.simulationEnd = none ∧
    (valueOf (topology nCsma)).world.installs =
      [⟨.pointToPoint, [0, 2], (valueOf (topology nCsma)).d1⟩,
       ⟨.pointToPoint, [1, 2], (valueOf (topology nCsma)).d2⟩,
       ⟨.pointToPoint, [2, 3], (valueOf (topology nCsma)).d3⟩,
       ⟨.pointToPoint, [4, 5], (valueOf (topology nCsma)).d4⟩,
       ⟨.pointToPoint, [5, 6], (valueOf (topology nCsma)).d5⟩,
       ⟨.csma, (valueOf (topology nCsma)).csmaNodes1, (valueOf (topology nCsma)).cd1⟩,
       ⟨.csma, (valueOf (topology nCsma)).csmaNodes2, (valueOf (topology nCsma)).cd2⟩] ∧
    (valueOf (topology nCsma)).world.stackInstalls =
      [[0], [1], [3], (valueOf (topology nCsma)).csmaNodes1, [5],
       (valueOf (topology nCsma)).csmaNodes2] := by
  cases nCsma with
  | zero => exact ⟨rfl, rfl, rfl, rfl, rfl, rfl, rfl, rfl, rfl⟩
  | succ k => exact ⟨rfl, rfl, rfl, rfl, rfl, rfl, rfl, rfl, rfl⟩

theorem addressing_eq (t : Topology)
    (h1 : t.d1.length ≤ 254) (h2 : t.d2.length ≤ 254) (h3 : t.d3.length ≤ 254)
    (h4 : t.cd1.length ≤ 254) (h5 : t.d4.length ≤ 254) (h6 : t.d5.length ≤ 254)
    (h7 : t.cd2.length ≤ 254) :
    addressing t = .ok (addressed t) := by
  unfold addressing
  simp only [SetBase_eq, bind, Except.bind, Assign_24 _ _ _ _ _ h1, Assign_24 _ _ _ _ _ h2,
    Assign_24 _ _ _ _ _ h3, Assign_24 _ _ _ _ _ h4, Assign_24 _ _ _ _ _ h5,
    Assign_24 _ _ _ _ _ h6, Assign_24 _ _ _ _ _ h7, pure, Except.pure]
  simp [addressed, mask24]

theorem applications_ok (t : Topology) (a : Addressing)
    (x0 x1 x2 x3 y0 y1 y2 c0 c1 c2 z0 z1 z2 : NodeId) (addrP addrC : Nat)
    (hp1 : t.p2pNodes1 = [x0, x1, x2, x3]) (hp2 : t.p2pNodes2 = [y0, y1, y2])
    (hc2 : t.csmaNodes2 = [c0, c1, c2])
    (hz0 : t.csmaNodes1.Get 0 = .ok z0) (hz1 : t.csmaNodes1.Get 1 = .ok z1)
    (hz2 : t.csmaNodes1.Get 2 = .ok z2)
    (hP : a.p2pInterfaces1.GetAddress 0 = .ok addrP)
    (hC : a.csmaInterfaces2.GetAddress 2 = .ok addrC)
    (ha : a.world.applications = []) (hs : a.world.schedule = []) :
    applications t a = .ok (applied t a x0 x1 x2 x3 y1 c0 c1 c2 z0 z1 z2 addrP addrC) := by
  have g0 : NodeContainer.Get [x0, x1, x2, x3] 0 = .ok x0 := rfl
  have g1 : NodeContainer.Get [x0, x1, x2, x3] 1 = .ok x1 := rfl
  have g2 : NodeContainer.Get [x0, x1, x2, x3] 2 = .ok x2 := rfl
  have g3 : NodeContainer.Get [x0, x1, x2, x3] 3 = .ok x3 := rfl
  have g4 : NodeContainer.Get [y0, y1, y2] 1 = .ok y1 := rfl
  have g5 : NodeContainer.Get [c0, c1, c2] 0 = .ok c0 := rfl
  have g6 : NodeContainer.Get [c0, c1, c2] 1 = .ok c1 := rfl
  have g7 : NodeContainer.Get [c0, c1, c2] 2 = .ok c2 := rfl
  unfold applications
  simp only [hp1, hp2, hc2, hz0, hz1, hz2, hP, hC, g0, g1, g2, g3, g4, g5, g6, g7,
    bind, Except.bind, pure, Except.pure, ApplicationHelper.Install,
    ApplicationContainer.Start, ApplicationContainer.Stop, List.foldl, World.updateApp,
    SetConstantPosition, ha, hs, List.length_nil, List.length_cons, List.length_append,
    List.nil_append, List.cons_append, List.modify_zero_cons, List.modify_succ_cons,
    List.length_modify]
  simp [applied, configured, installed]

theorem csmaNodes1_get (n : Nat) (hn : 1 ≤ n) :
    NodeContainer.Get (2 :: (List.range' 7 n ++ [4])) 0 = .ok 2 ∧
    NodeContainer.Get (2 :: (List.range' 7 n ++ [4])) 1 = .ok 7 ∧
    NodeContainer.Get (2 :: (List.range' 7 n ++ [4])) 2 = .ok (if n = 1 then 4 else 8) := by
  rcases n with _ | _ | k
  · omega
  · exact ⟨rfl, rfl, rfl⟩
  · exact ⟨rfl, rfl, rfl⟩

theorem normalised_pos (nCsma : Nat) : 1 ≤ normalised nCsma := by
  unfold normalised; split <;> omega

theorem normalised_le (nCsma : Nat) (h : nCsma ≤ 252) : normalised nCsma ≤ 252 := by
  unfold normalised; split <;> omega

/-- For `nCsma ≤ 252` the run of `main` completes with the result `finalOf`. -/
theorem main_eq (nCsma : Nat) (h : nCsma ≤ 252) : main nCsma = .ok (finalOf nCsma) := by
  obtain ⟨-, f1, f2, f3, f4, f5, f6, f7, f8, f9, f10, f11⟩ := topology_fields nCsma
  obtain ⟨w1, w2, -⟩ := topology_world nCsma
  obtain ⟨g0, g1, g2⟩ := csmaNodes1_get (normalised nCsma) (normalised_pos nCsma)
  have hn := normalised_le nCsma h
  have hcd1 : (valueOf (topology nCsma)).cd1.length ≤ 254 := by
    rw [f10]; simp [newDevices_length]; omega
  unfold main
  rw [topology_eq]
  simp only [bind, Except.bind]
  rw [addressing_eq _ (by rw [f5]; decide) (by rw [f6]; decide) (by rw [f7]; decide) hcd1
    (by rw [f8]; decide) (by rw [f9]; decide) (by rw [f11]; simp [newDevices_length])]
  refine applications_ok _ _ 0 1 2 3 4 5 6 6 (7 + normalised nCsma) (7 + normalised nCsma + 1)
    2 7 (if normalised nCsma = 1 then 4 else 8) (ipv4 10 1 1 1) (ipv4 10 1 7 3)
    f1 f2 f4 (by rw [f3]; exact g0) (by rw [f3]; exact g1) (by rw [f3]; exact g2) ?_ ?_ w1 w2
  · show Ipv4InterfaceContainer.GetAddress (assignedInterfaces _ _) 0 = _
    rw [getAddress_assigned _ _ 0 ⟨0, 0⟩ (by rw [f5]; rfl)]
    exact congrArg Except.ok (by decide)
  · show Ipv4InterfaceContainer.GetAddress (assignedInterfaces _ _) 2 = _
    rw [getAddress_assigned _ _ 2 _ (by rw [f11]; rfl)]
    exact congrArg Except.ok (by decide)

end midterm

/-! ## Facts about the completed run of midterm.cc -/

namespace midterm

theorem installed_windowValid (h : ApplicationHelper) (node : NodeId) (t1 t2 : Time)
    (h1 : 0 ≤ t1) (h2 : t1 < t2) : (installed h node t1 t2).windowValid :=
  ⟨t1, t2, rfl, rfl, h1, h2⟩

theorem finalOf_setBaseLog (nCsma : Nat) :
    (finalOf nCsma).world.setBaseLog =
      [⟨ipv4 10 1 1 0, mask24⟩, ⟨ipv4 10 1 2 0, mask24⟩, ⟨ipv4 10 1 3 0, mask24⟩,
       ⟨ipv4 10 1 4 0, mask24⟩, ⟨ipv4 10 1 5 0, mask24⟩, ⟨ipv4 10 1 6 0, mask24⟩,
       ⟨ipv4 10 1 7 0, mask24⟩] := by
  show (valueOf (topology nCsma)).world.setBaseLog ++ _ = _
  rw [(topology_world nCsma).2.2.2.1]
  rfl

theorem finalOf_lifecyclesValid (nCsma : Nat) : lifecyclesValid (finalOf nCsma).world := by
  constructor
  · intro a ha
    have ha' : a ∈ [installed (UdpEchoServerHelper 9) 3 (Seconds 1) (Seconds 10),
        installed (configured (UdpEchoClientHelper (ipv4 10 1 7 3) 9))
          (7 + normalised nCsma + 1) (Seconds 7) (Seconds 12),
        installed (UdpEchoClientHelper (ipv4 10 1 7 3) 9) 5 (Seconds 2) (Seconds 7),
        installed (configured (UdpEchoClientHelper (ipv4 10 1 1 1) 9)) 1
          (Seconds 12) (Seconds 22),
        installed (UdpEchoClientHelper (ipv4 10 1 1 1) 9) (7 + normalised nCsma + 1)
          (Seconds 8) (Seconds 12),
        installed ((BulkSendHelper "ns3::TcpSocketFactory"
          (.inetSocketAddress (ipv4 10 1 1 1) 9)).SetAttribute "MaxBytes" (.uinteger 0))
          0 (Seconds 2) (Seconds 7),
        installed (PacketSinkHelper "ns3::TcpSocketFactory" (.anySocketAddress 9))
          2 (Seconds 2) (Seconds 7)] := ha
    simp only [List.mem_cons, List.mem_singleton, List.not_mem_nil, or_false] at ha'
    rcases ha' with e | e | e | e | e | e | e <;> subst e <;>
      exact installed_windowValid _ _ _ _ (by decide) (by decide)
  · show startStopOrdered
      [⟨Seconds 1, 0, .StartEndpoint⟩, ⟨Seconds 10, 0, .StopEndpoint⟩,
       ⟨Seconds 7, 1, .StartEndpoint⟩, ⟨Seconds 12, 1, .StopEndpoint⟩,
       ⟨Seconds 2, 2, .StartEndpoint⟩, ⟨Seconds 7, 2, .StopEndpoint⟩,
       ⟨Seconds 12, 3, .StartEndpoint⟩, ⟨Seconds 22, 3, .StopEndpoint⟩,
       ⟨Seconds 8, 4, .StartEndpoint⟩, ⟨Seconds 12, 4, .StopEndpoint⟩,
       ⟨Seconds 2, 5, .StartEndpoint⟩, ⟨Seconds 7, 5, .StopEndpoint⟩,
       ⟨Seconds 2, 6, .StartEndpoint⟩, ⟨Seconds 7, 6, .StopEndpoint⟩]
    decide

theorem csmaNodes1_nodup (n : Nat) : (2 :: (List.range' 7 n ++ [4])).Nodup := by
  rw [List.nodup_cons]
  constructor
  · simp only [List.mem_append, List.mem_range'_1, List.mem_singleton, not_or]
    omega
  · rw [List.nodup_append]
    refine ⟨List.nodup_range' _ _, List.nodup_singleton _, ?_⟩
    intro a ha hb
    simp only [List.mem_range'_1, List.mem_singleton] at ha hb
    omega

theorem topology_arity (nCsma : Nat) :
    ∀ l ∈ (valueOf (topology nCsma)).world.installs, l.arityValid := by
  obtain ⟨-, -, -, f3, f4, f5, f6, f7, f8, f9, f10, f11⟩ := topology_fields nCsma
  obtain ⟨-, -, -, -, -, -, -, w8, -⟩ := topology_world nCsma
  have hn := normalised_pos nCsma
  intro l hl
  rw [w8] at hl
  simp only [List.mem_cons, List.mem_singleton, List.not_mem_nil, or_false] at hl
  rcases hl with e | e | e | e | e | e | e <;> subst e
  · rw [f5]; decide
  · rw [f6]; decide
  · rw [f7]; decide
  · rw [f8]; decide
  · rw [f9]; decide
  · rw [f3, f10]
    refine ⟨csmaNodes1_nodup _, newDevices_nodes _ _, ?_, by intro h; cases h⟩
    simp
  · rw [f4, f11]
    refine ⟨?_, newDevices_nodes _ _, by simp, by intro h; cases h⟩
    show ([6, 7 + normalised nCsma, 7 + normalised nCsma + 1] : List Nat).Nodup
    simp only [List.nodup_cons, List.mem_cons, List.mem_singleton, List.not_mem_nil,
      List.nodup_nil, and_true, not_false_eq_true, or_false, not_or]
    omega

end midterm

/-! ## The command line declaration of wirelesslatest.cc -/

namespace wirelesslatest

/-- With `_FILE_` declared nowhere, as in the committed sources, line 23 stops
the build: `main` yields no result. -/
theorem main_undeclared : main none = .error .undeclaredIdentifier := rfl

/-- In a build that declares `_FILE_`, the value it is given has no influence
on what `main` does. -/
theorem main_declared (f : String) : main (some f) = main (some "") := rfl

end wirelesslatest

/-! ## The claims -/

/-- C5: failing case.  In `wired-tcp-udp.cc` the device container `d7d8`
returned by `csma.Install (n7n8)` is installed on two nodes and is never
passed to `Assign`, so none of its devices gets an interface; the nine other
device containers of that script are all passed to `Assign`, and so is every
device container of `wirelesslatest.cc` in a build that declares `_FILE_`. -/
theorem C5_wired_d7d8_never_addressed :
    Completes wired_tcp_udp.main (fun r =>
      (⟨.csma, r.n7n8, r.d7d8⟩ : LinkInstall) ∈ r.world.installs ∧
      r.d7d8.length = 2 ∧
      r.d7d8 ∉ r.world.assignLog ∧
      (∀ i ∈ r.world.interfaces, i.device ∉ r.d7d8) ∧
      ¬ r.world.everyLinkAddressed ∧
      (∀ l ∈ r.world.installs, l.devices ≠ r.d7d8 → l.devices ∈ r.world.assignLog)) ∧
    ∀ f : String,
      Completes (wirelesslatest.main (some f)) (fun r => r.world.everyLinkAddressed) := by
  have e : Completes (wirelesslatest.main (some ""))
      (fun r => r.world.everyLinkAddressed) := by
    decide
  exact ⟨by decide, fun f => by rw [wirelesslatest.main_declared f]; exact e⟩

/-- C6: failing case.  The events that `wired-tcp-udp.cc` registers are the
start and stop of four applications at 1 s/3 s, 1 s/3 s, 5 s/10 s and
5 s/10 s: the first flow stops at 3 s and not at 10 s, no event fires at
11 s or 16 s, and no interface-up or interface-down event is registered. -/
theorem C6_wired_schedule_has_no_interface_events :
    Completes wired_tcp_udp.main (fun r =>
      r.world.schedule =
        [⟨Seconds 1, 0, .StartEndpoint⟩, ⟨Seconds 3, 0, .StopEndpoint⟩,
         ⟨Seconds 1, 1, .StartEndpoint⟩, ⟨Seconds 3, 1, .StopEndpoint⟩,
         ⟨Seconds 5, 2, .StartEndpoint⟩, ⟨Seconds 10, 2, .StopEndpoint⟩,
         ⟨Seconds 5, 3, .StartEndpoint⟩, ⟨Seconds 10, 3, .StopEndpoint⟩] ∧
      (∀ e ∈ r.world.schedule,
        e.action ≠ .SetLinkInterfaceUp ∧ e.action ≠ .SetLinkInterfaceDown) ∧
      (∀ e ∈ r.world.schedule, e.fireTime ≠ Seconds 11 ∧ e.fireTime ≠ Seconds 16) ∧
      r.world.applications.map (fun a => a.typeId) =
        ["ns3::OnOffApplication", "ns3::PacketSink", "ns3::PacketSink",
         "ns3::BulkSendApplication"]) := by
  decide

/-- C7: in `wired-tcp-udp.cc` the TCP bulk-send client's destination is the
server.  The destination `i2i6.GetAddress (1)` is `10.1.3.2`, the address of
the interface assigned to the device of node `c.Get (5)`; the TCP packet
sink is installed on that node; client and sink use port 9; and both have
the window from 5 s to 10 s. -/
theorem C7_tcp_client_targets_server :
    Completes wired_tcp_udp.main (fun r =>
      r.i2i6.GetAddress 1 = .ok (ipv4 10 1 3 2) ∧
      r.c.Get 5 = .ok 5 ∧
      r.n2n6 = [1, 5] ∧
      r.d2d6.map (fun d => d.node) = [1, 5] ∧
      r.i2i6.map (fun i => (i.device, i.address)) =
        (r.d2d6.zip [ipv4 10 1 3 1, ipv4 10 1 3 2]) ∧
      (∀ i ∈ r.world.interfaces, i.address = ipv4 10 1 3 2 → i.device.node = 5) ∧
      r.world.ownerOf (ipv4 10 1 3 2) = some 5 ∧
      r.world.appsOf r.serverApps =
        [installed (PacketSinkHelper "ns3::TcpSocketFactory" (.anySocketAddress 9)) 5
          (Seconds 5) (Seconds 10)] ∧
      r.world.appsOf r.clientApps =
        [installed ((BulkSendHelper "ns3::TcpSocketFactory"
          (.inetSocketAddress (ipv4 10 1 3 2) 9)).SetAttribute "MaxBytes" (.uinteger 0)) 2
          (Seconds 5) (Seconds 10)]) := by
  decide

/-- C8: failing case.  In `wired-tcp-udp.cc` the OnOff application runs on
node `c.Get (9)` and sends to `i1i3.GetAddress (1)`, which is `10.1.2.2`, an
address of node `c.Get (2)`; the UDP packet sink is installed on node
`c.Get (9)`, the sender's own node, and no packet sink at all is installed
on node 2.  Port (9) and window (1 s to 3 s) of sink and flow agree. -/
theorem C8_udp_sink_not_on_destination_node :
    Completes wired_tcp_udp.main (fun r =>
      r.i1i3.GetAddress 1 = .ok (ipv4 10 1 2 2) ∧
      r.world.ownerOf (ipv4 10 1 2 2) = some 2 ∧
      (∀ i ∈ r.world.interfaces, i.address = ipv4 10 1 2 2 → i.device.node = 2) ∧
      r.onoff.attribute "Remote" = some (.inetSocketAddress (ipv4 10 1 2 2) 9) ∧
      r.world.applications.get? 0 = some (installed r.onoff 9 (Seconds 1) (Seconds 3)) ∧
      r.world.appsOf r.apps =
        [installed (PacketSinkHelper "ns3::UdpSocketFactory" (.anySocketAddress 9)) 9
          (Seconds 1) (Seconds 3)] ∧
      (∀ a ∈ r.world.applications, a.typeId = "ns3::PacketSink" → a.node ≠ 2)) := by
  decide

/-- C9: in `midterm.cc` the attribute settings written after the construction
of `echoClient21` and of `echoClient2` go to `echoClient11` and
`echoClient1`.  On every completed run (`nCsma ≤ 252`): `echoClient21` and
`echoClient2` are still as constructed, and the applications installed from
them carry the constructor's attributes only (no `MaxPackets`, `Interval` or
`PacketSize`); `echoClient11` and `echoClient1` end exactly as after their
first three settings, with `MaxPackets = 1`, `Interval = 1 s` and
`PacketSize = 1024`, which are also the attributes of the applications
installed from them. -/
theorem C9_echo_client_attribute_settings (nCsma : Nat) (h : nCsma ≤ 252) :
    Completes (midterm.main nCsma) (fun r =>
      r.echoClient21 = UdpEchoClientHelper (ipv4 10 1 7 3) 9 ∧
      r.echoClient2 = UdpEchoClientHelper (ipv4 10 1 1 1) 9 ∧
      (r.world.appsOf r.clientApps21).map (fun a => a.attributes) =
        [(UdpEchoClientHelper (ipv4 10 1 7 3) 9).attributes] ∧
      (r.world.appsOf r.clientApps2).map (fun a => a.attributes) =
        [(UdpEchoClientHelper (ipv4 10 1 1 1) 9).attributes] ∧
      r.echoClient21.attribute "MaxPackets" = none ∧
      r.echoClient21.attribute "Interval" = none ∧
      r.echoClient21.attribute "PacketSize" = none ∧
      r.echoClient2.attribute "MaxPackets" = none ∧
      r.echoClient2.attribute "Interval" = none ∧
      r.echoClient2.attribute "PacketSize" = none ∧
      r.echoClient11 = midterm.configured (UdpEchoClientHelper (ipv4 10 1 7 3) 9) ∧
      r.echoClient1 = midterm.configured (UdpEchoClientHelper (ipv4 10 1 1 1) 9) ∧
      (r.world.appsOf r.clientApps11).map (fun a => a.attributes) =
        [r.echoClient11.attributes] ∧
      (r.world.appsOf r.clientApps1).map (fun a => a.attributes) =
        [r.echoClient1.attributes] ∧
      r.echoClient11.attribute "MaxPackets" = some (.uinteger 1) ∧
      r.echoClient11.attribute "Interval" = some (.time (Seconds 1)) ∧
      r.echoClient11.attribute "PacketSize" = some (.uinteger 1024) ∧
      r.echoClient1.attribute "MaxPackets" = some (.uinteger 1) ∧
      r.echoClient1.attribute "Interval" = some (.time (Seconds 1)) ∧
      r.echoClient1.attribute "PacketSize" = some (.uinteger 1024)) := by
  have e1 : midterm.configured (midterm.configured (UdpEchoClientHelper (ipv4 10 1 7 3) 9)) =
      midterm.configured (UdpEchoClientHelper (ipv4 10 1 7 3) 9) := by decide
  have e2 : midterm.configured (midterm.configured (UdpEchoClientHelper (ipv4 10 1 1 1) 9)) =
      midterm.configured (UdpEchoClientHelper (ipv4 10 1 1 1) 9) := by decide
  have a1 : (UdpEchoClientHelper (ipv4 10 1 7 3) 9).attribute "MaxPackets" = none := by decide
  have a2 : (UdpEchoClientHelper (ipv4 10 1 7 3) 9).attribute "Interval" = none := by decide
  have a3 : (UdpEchoClientHelper (ipv4 10 1 7 3) 9).attribute "PacketSize" = none := by decide
  have b1 : (UdpEchoClientHelper (ipv4 10 1 1 1) 9).attribute "MaxPackets" = none := by decide
  have b2 : (UdpEchoClientHelper (ipv4 10 1 1 1) 9).attribute "Interval" = none := by decide
  have b3 : (UdpEchoClientHelper (ipv4 10 1 1 1) 9).attribute "PacketSize" = none := by decide
  refine ⟨_, midterm.main_eq nCsma h, rfl, rfl, rfl, rfl, a1, a2, a3, b1, b2, b3, e1, e2,
    ?_, ?_, ?_, ?_, ?_, ?_, ?_, ?_⟩
  · show [(midterm.configured (UdpEchoClientHelper (ipv4 10 1 7 3) 9)).attributes] =
      [(midterm.configured (midterm.configured
        (UdpEchoClientHelper (ipv4 10 1 7 3) 9))).attributes]
    rw [e1]
  · show [(midterm.configured (UdpEchoClientHelper (ipv4 10 1 1 1) 9)).attributes] =
      [(midterm.configured (midterm.configured
        (UdpEchoClientHelper (ipv4 10 1 1 1) 9))).attributes]
    rw [e2]
  · show (midterm.configured (midterm.configured
      (UdpEchoClientHelper (ipv4 10 1 7 3) 9))).attribute "MaxPackets" = _
    decide
  · show (midterm.configured (midterm.configured
      (UdpEchoClientHelper (ipv4 10 1 7 3) 9))).attribute "Interval" = _
    decide
  · show (midterm.configured (midterm.configured
      (UdpEchoClientHelper (ipv4 10 1 7 3) 9))).attribute "PacketSize" = _
    decide
  · show (midterm.configured (midterm.configured
      (UdpEchoClientHelper (ipv4 10 1 1 1) 9))).attribute "MaxPackets" = _
    decide
  · show (midterm.configured (midterm.configured
      (UdpEchoClientHelper (ipv4 10 1 1 1) 9))).attribute "Interval" = _
    decide
  · show (midterm.configured (midterm.configured
      (UdpEchoClientHelper (ipv4 10 1 1 1) 9))).attribute "PacketSize" = _
    decide

/-- Witness of C9 at the default command-line value `nCsma = 1`. -/
theorem C9_echo_client_attribute_settings_witness :
    (1 : Nat) ≤ 252 ∧
    Completes (midterm.main 1) (fun r =>
      r.echoClient21 = UdpEchoClientHelper (ipv4 10 1 7 3) 9 ∧
      r.echoClient2 = UdpEchoClientHelper (ipv4 10 1 1 1) 9 ∧
      (r.world.appsOf r.clientApps21).map (fun a => a.attributes) =
        [(UdpEchoClientHelper (ipv4 10 1 7 3) 9).attributes] ∧
      (r.world.appsOf r.clientApps2).map (fun a => a.attributes) =
        [(UdpEchoClientHelper (ipv4 10 1 1 1) 9).attributes] ∧
      r.echoClient21.attribute "MaxPackets" = none ∧
      r.echoClient21.attribute "Interval" = none ∧
      r.echoClient21.attribute "PacketSize" = none ∧
      r.echoClient2.attribute "MaxPackets" = none ∧
      r.echoClient2.attribute "Interval" = none ∧
      r.echoClient2.attribute "PacketSize" = none ∧
      r.echoClient11 = midterm.configured (UdpEchoClientHelper (ipv4 10 1 7 3) 9) ∧
      r.echoClient1 = midterm.configured (UdpEchoClientHelper (ipv4 10 1 1 1) 9) ∧
      (r.world.appsOf r.clientApps11).map (fun a => a.attributes) =
        [r.echoClient11.attributes] ∧
      (r.world.appsOf r.clientApps1).map (fun a => a.attributes) =
        [r.echoClient1.attributes] ∧
      r.echoClient11.attribute "MaxPackets" = some (.uinteger 1) ∧
      r.echoClient11.attribute "Interval" = some (.time (Seconds 1)) ∧
      r.echoClient11.attribute "PacketSize" = some (.uinteger 1024) ∧
      r.echoClient1.attribute "MaxPackets" = some (.uinteger 1) ∧
      r.echoClient1.attribute "Interval" = some (.time (Seconds 1)) ∧
      r.echoClient1.attribute "PacketSize" = some (.uinteger 1024)) :=
  ⟨by decide, C9_echo_client_attribute_settings 1 (by decide)⟩

/-- C10: in `midterm.cc` two address assignments are stored in the wrong
variable and discard an earlier one.  On every completed run (`nCsma ≤ 252`),
after the addressing block `p2pInterfaces4` and `p2pInterfaces5` are still
empty, `p2pInterfaces2` holds the interfaces of `d4` (addresses `10.1.5.1`
and `10.1.5.2`, in block `10.1.5.0/24`) and not those of `d2`,
`p2pInterfaces3` holds the interfaces of `d5` (addresses `10.1.6.1` and
`10.1.6.2`, in block `10.1.6.0/24`) and not those of `d3`, and
`p2pInterfaces1`, `csmaInterfaces1` and `csmaInterfaces2` hold the
interfaces of `d1`, `cd1` and `cd2`; all seven device containers were passed
to `Assign`. -/
theorem C10_interface_containers_after_addressing (nCsma : Nat) (h : nCsma ≤ 252) :
    Completes (midterm.main nCsma) (fun r =>
      r.addressing.p2pInterfaces4 = [] ∧
      r.addressing.p2pInterfaces5 = [] ∧
      r.addressing.p2pInterfaces2.map (fun i => i.device) = r.topology.d4 ∧
      r.addressing.p2pInterfaces2.map (fun i => i.address) =
        [ipv4 10 1 5 1, ipv4 10 1 5 2] ∧
      (∀ i ∈ r.addressing.p2pInterfaces2,
        (⟨ipv4 10 1 5 0, mask24⟩ : AddressBlock).contains i.address) ∧
      r.addressing.p2pInterfaces2.map (fun i => i.device) ≠ r.topology.d2 ∧
      r.addressing.p2pInterfaces3.map (fun i => i.device) = r.topology.d5 ∧
      r.addressing.p2pInterfaces3.map (fun i => i.address) =
        [ipv4 10 1 6 1, ipv4 10 1 6 2] ∧
      (∀ i ∈ r.addressing.p2pInterfaces3,
        (⟨ipv4 10 1 6 0, mask24⟩ : AddressBlock).contains i.address) ∧
      r.addressing.p2pInterfaces3.map (fun i => i.device) ≠ r.topology.d3 ∧
      r.addressing.p2pInterfaces1.map (fun i => i.device) = r.topology.d1 ∧
      r.addressing.csmaInterfaces1.map (fun i => i.device) = r.topology.cd1 ∧
      r.addressing.csmaInterfaces2.map (fun i => i.device) = r.topology.cd2 ∧
      r.world.assignLog =
        [r.topology.d1, r.topology.d2, r.topology.d3, r.topology.cd1, r.topology.d4,
         r.topology.d5, r.topology.cd2]) := by
  obtain ⟨-, -, -, -, -, -, f6, f7, f8, f9, -, -⟩ := midterm.topology_fields nCsma
  obtain ⟨-, -, -, -, w5, -⟩ := midterm.topology_world nCsma
  refine ⟨_, midterm.main_eq nCsma h, rfl, rfl, assignedInterfaces_devices _ _, ?_, ?_, ?_,
    assignedInterfaces_devices _ _, ?_, ?_, ?_, assignedInterfaces_devices _ _,
    assignedInterfaces_devices _ _, assignedInterfaces_devices _ _, ?_⟩
  · show (assignedInterfaces (helperAt (ipv4 10 1 5 0) mask24)
      (valueOf (midterm.topology nCsma)).d4).map (fun i => i.address) = _
    rw [f8]; decide
  · show ∀ i ∈ assignedInterfaces (helperAt (ipv4 10 1 5 0) mask24)
      (valueOf (midterm.topology nCsma)).d4, _
    rw [f8]; decide
  · show (assignedInterfaces (helperAt (ipv4 10 1 5 0) mask24)
      (valueOf (midterm.topology nCsma)).d4).map (fun i => i.device) ≠
      (valueOf (midterm.topology nCsma)).d2
    rw [f8, f6]; decide
  · show (assignedInterfaces (helperAt (ipv4 10 1 6 0) mask24)
      (valueOf (midterm.topology nCsma)).d5).map (fun i => i.address) = _
    rw [f9]; decide
  · show ∀ i ∈ assignedInterfaces (helperAt (ipv4 10 1 6 0) mask24)
      (valueOf (midterm.topology nCsma)).d5, _
    rw [f9]; decide
  · show (assignedInterfaces (helperAt (ipv4 10 1 6 0) mask24)
      (valueOf (midterm.topology nCsma)).d5).map (fun i => i.device) ≠
      (valueOf (midterm.topology nCsma)).d3
    rw [f9, f7]; decide
  · show (valueOf (midterm.topology nCsma)).world.assignLog ++ _ = _
    rw [w5]; rfl

/-- Witness of C10 at the default command-line value `nCsma = 1`. -/
theorem C10_interface_containers_after_addressing_witness :
    (1 : Nat) ≤ 252 ∧
    Completes (midterm.main 1) (fun r =>
      r.addressing.p2pInterfaces4 = [] ∧
      r.addressing.p2pInterfaces5 = [] ∧
      r.addressing.p2pInterfaces2.map (fun i => i.device) = r.topology.d4 ∧
      r.addressing.p2pInterfaces2.map (fun i => i.address) =
        [ipv4 10 1 5 1, ipv4 10 1 5 2] ∧
      (∀ i ∈ r.addressing.p2pInterfaces2,
        (⟨ipv4 10 1 5 0, mask24⟩ : AddressBlock).contains i.address) ∧
      r.addressing.p2pInterfaces2.map (fun i => i.device) ≠ r.topology.d2 ∧
      r.addressing.p2pInterfaces3.map (fun i => i.device) = r.topology.d5 ∧
      r.addressing.p2pInterfaces3.map (fun i => i.address) =
        [ipv4 10 1 6 1, ipv4 10 1 6 2] ∧
      (∀ i ∈ r.addressing.p2pInterfaces3,
        (⟨ipv4 10 1 6 0, mask24⟩ : AddressBlock).contains i.address) ∧
      r.addressing.p2pInterfaces3.map (fun i => i.device) ≠ r.topology.d3 ∧
      r.addressing.p2pInterfaces1.map (fun i => i.device) = r.topology.d1 ∧
      r.addressing.csmaInterfaces1.map (fun i => i.device) = r.topology.cd1 ∧
      r.addressing.csmaInterfaces2.map (fun i => i.device) = r.topology.cd2 ∧
      r.world.assignLog =
        [r.topology.d1, r.topology.d2, r.topology.d3, r.topology.cd1, r.topology.d4,
         r.topology.d5, r.topology.cd2]) :=
  ⟨by decide, C10_interface_containers_after_addressing 1 (by decide)⟩

/-! ## Runs of midterm.cc that stop early, node sharing and stack coverage -/

theorem assignEach_overflow (ds : NetDeviceContainer) (h : Ipv4AddressHelper)
    (hinv : h.address ≤ h.max + 1) (hlen : h.max + 1 < h.address + ds.length) :
    h.assignEach ds = .error .addressOverflow := by
  induction ds generalizing h with
  | nil => simp at hlen; omega
  | cons d ds ih =>
    by_cases h1 : h.address ≤ h.max
    · simp only [Ipv4AddressHelper.assignEach, Ipv4AddressHelper.NewAddress, if_pos h1]
      rw [ih { h with address := h.address + 1 } (by simp; omega)
        (by simp at hlen ⊢; omega)]
    · simp only [Ipv4AddressHelper.assignEach, Ipv4AddressHelper.NewAddress, if_neg h1]

theorem Assign_24_overflow (a b c : Nat) (ds : NetDeviceContainer) (w : World)
    (h : 254 < ds.length) :
    (helperAt (ipv4 a b c 0) (ipv4 255 255 255 0)).Assign ds w = .error .addressOverflow := by
  have e : (helperAt (ipv4 a b c 0) (ipv4 255 255 255 0)).assignEach ds =
      .error .addressOverflow :=
    assignEach_overflow ds _ (by show 1 ≤ 254 + 1; omega) (by show 254 + 1 < 1 + ds.length; omega)
  simp only [Ipv4AddressHelper.Assign, e]

namespace midterm

theorem addressing_overflow (t : Topology)
    (h1 : t.d1.length ≤ 254) (h2 : t.d2.length ≤ 254) (h3 : t.d3.length ≤ 254)
    (h4 : 254 < t.cd1.length) :
    addressing t = .error .addressOverflow := by
  unfold addressing
  simp only [SetBase_eq, bind, Except.bind, Assign_24 _ _ _ _ _ h1, Assign_24 _ _ _ _ _ h2,
    Assign_24 _ _ _ _ _ h3, Assign_24_overflow _ _ _ _ _ h4]

/-- For `nCsma ≥ 253` the run stops in the addressing block: `cd1` has more
devices than the block `10.1.4.0/24` has host addresses. -/
theorem main_overflow (nCsma : Nat) (h : 253 ≤ nCsma) :
    main nCsma = .error .addressOverflow := by
  obtain ⟨-, -, -, -, -, f5, f6, f7, -, -, f10, -⟩ := topology_fields nCsma
  have hn : normalised nCsma = nCsma := by unfold normalised; split <;> omega
  have hcd1 : 254 < (valueOf (topology nCsma)).cd1.length := by
    rw [f10]; simp [newDevices_length]; omega
  unfold main
  rw [topology_eq]
  simp only [bind, Except.bind]
  rw [addressing_overflow _ (by rw [f5]; decide) (by rw [f6]; decide) (by rw [f7]; decide) hcd1]

theorem topology_nodeCount (nCsma : Nat) :
    (valueOf (topology nCsma)).world.nodeCount = 7 + normalised nCsma + 2 := by
  cases nCsma with
  | zero => rfl
  | succ k => rfl

theorem csmaNodes1_get_last (n : Nat) :
    NodeContainer.Get (2 :: (List.range' 7 n ++ [4])) (n + 1) = .ok 4 := by
  have e : (2 :: (List.range' 7 n ++ [4])).get? (n + 1) = some 4 := by
    simp [List.getElem?_append_right]
  simp only [NodeContainer.Get, e]

end midterm

theorem assignedInterfaces_length (h : Ipv4AddressHelper) (ds : NetDeviceContainer) :
    (assignedInterfaces h ds).length = ds.length := by
  simp [assignedInterfaces]

namespace midterm

theorem normalised_eq_max (nCsma : Nat) : normalised nCsma = max nCsma 1 := by
  unfold normalised; split <;> omega

/-- The node handles held by the four node containers. -/
theorem containers_mem (n x : Nat) :
    x ∈ [0, 1, 2, 3] ++ [4, 5, 6] ++ (2 :: (List.range' 7 n ++ [4])) ++
      [6, 7 + n, 7 + n + 1] ↔ x < 9 + n := by
  simp only [List.mem_cons, List.mem_append, List.mem_range'_1, List.mem_singleton,
    List.not_mem_nil, or_false]
  omega

/-- The node handles that receive the protocol stack, call after call. -/
theorem stack_join (n : Nat) :
    List.flatten [[0], [1], [3], 2 :: (List.range' 7 n ++ [4]), [5], [6, 7 + n, 7 + n + 1]] =
      0 :: 1 :: 3 :: 2 :: (List.range' 7 n ++ [4, 5, 6, 7 + n, 7 + n + 1]) := by
  simp [List.flatten]

theorem stack_mem (n x : Nat) :
    x ∈ 0 :: 1 :: 3 :: 2 :: (List.range' 7 n ++ [4, 5, 6, 7 + n, 7 + n + 1]) ↔ x < 9 + n := by
  simp only [List.mem_cons, List.mem_append, List.mem_range'_1, List.mem_singleton,
    List.not_mem_nil, or_false]
  omega

theorem stack_nodup (n : Nat) :
    (0 :: 1 :: 3 :: 2 :: (List.range' 7 n ++ [4, 5, 6, 7 + n, 7 + n + 1])).Nodup := by
  have h1 : (List.range' 7 n ++ [4, 5, 6, 7 + n, 7 + n + 1]).Nodup := by
    rw [List.nodup_append]
    refine ⟨List.nodup_range' _ _, ?_, ?_⟩
    · simp only [List.nodup_cons, List.mem_cons, List.mem_singleton, List.not_mem_nil,
        List.nodup_nil, and_true, not_false_eq_true, or_false, not_or]
      omega
    · intro a ha hb
      simp only [List.mem_range'_1, List.mem_cons, List.mem_singleton, List.not_mem_nil,
        or_false] at ha hb
      omega
  have h2 : ∀ x, x < 4 → x ∉ List.range' 7 n ++ [4, 5, 6, 7 + n, 7 + n + 1] := by
    intro x hx
    simp only [List.mem_append, List.mem_range'_1, List.mem_cons, List.mem_singleton,
      List.not_mem_nil, or_false, not_or]
    omega
  refine List.nodup_cons.mpr ⟨?_, List.nodup_cons.mpr ⟨?_, List.nodup_cons.mpr ⟨?_,
    List.nodup_cons.mpr ⟨h2 2 (by omega), h1⟩⟩⟩⟩
  · simp only [List.mem_cons, not_or]
    exact ⟨by omega, by omega, by omega, h2 0 (by omega)⟩
  · simp only [List.mem_cons, not_or]
    exact ⟨by omega, by omega, h2 1 (by omega)⟩
  · simp only [List.mem_cons, not_or]
    exact ⟨by omega, h2 3 (by omega)⟩

end midterm

/-- C11: in `midterm.cc` node identities are shared between containers by
position.  For every command-line value `nCsma`, with
`n = (nCsma == 0 ? 1 : nCsma)`: `csmaNodes1` has `n + 2` entries, its entry 0
is `p2pNodes1.Get (2)` and its entry `n + 1` is `p2pNodes2.Get (0)`;
`csmaNodes2` has 3 entries and its entry 0 is `p2pNodes2.Get (2)`; the
script creates `9 + n` nodes, and the node handles held by the four
containers are exactly the `9 + n` handles `0 .. 8 + n`. -/
theorem C11_nodes_shared_by_position (nCsma : Nat) :
    Completes (midterm.topology nCsma) (fun t =>
      t.nCsma = (if nCsma = 0 then 1 else nCsma) ∧
      t.csmaNodes1.length = t.nCsma + 2 ∧
      t.csmaNodes1.Get 0 = t.p2pNodes1.Get 2 ∧
      t.p2pNodes1.Get 2 = .ok 2 ∧
      t.csmaNodes1.Get (t.nCsma + 1) = t.p2pNodes2.Get 0 ∧
      t.p2pNodes2.Get 0 = .ok 4 ∧
      t.csmaNodes2.length = 3 ∧
      t.csmaNodes2.Get 0 = t.p2pNodes2.Get 2 ∧
      t.p2pNodes2.Get 2 = .ok 6 ∧
      t.world.nodeCount = 9 + t.nCsma ∧
      (t.p2pNodes1 ++ t.p2pNodes2 ++ t.csmaNodes1 ++ t.csmaNodes2).toFinset =
        Finset.range (9 + t.nCsma) ∧
      (t.p2pNodes1 ++ t.p2pNodes2 ++ t.csmaNodes1 ++ t.csmaNodes2).toFinset.card =
        9 + t.nCsma) := by
  obtain ⟨f0, f1, f2, f3, f4, -⟩ := midterm.topology_fields nCsma
  have hset : ((valueOf (midterm.topology nCsma)).p2pNodes1 ++
      (valueOf (midterm.topology nCsma)).p2pNodes2 ++
      (valueOf (midterm.topology nCsma)).csmaNodes1 ++
      (valueOf (midterm.topology nCsma)).csmaNodes2).toFinset =
      Finset.range (9 + midterm.normalised nCsma) := by
    rw [f1, f2, f3, f4]
    ext x
    rw [List.mem_toFinset, Finset.mem_range]
    exact midterm.containers_mem _ x
  refine ⟨_, midterm.topology_eq nCsma, f0, ?_, ?_, ?_, ?_, ?_, ?_, ?_, ?_, ?_, ?_, ?_⟩
  · rw [f0, f3]
    simp only [List.length_cons, List.length_append, List.length_range', List.length_singleton,
      List.length_nil]
  · rw [f3, f1]; rfl
  · rw [f1]; rfl
  · rw [f0, f3, f2]; exact midterm.csmaNodes1_get_last _
  · rw [f2]; rfl
  · rw [f4]; rfl
  · rw [f4, f2]; rfl
  · rw [f2]; rfl
  · rw [f0, midterm.topology_nodeCount]; omega
  · rw [f0]; exact hset
  · rw [f0, hset]; exact Finset.card_range _

/-- C12: every positional index used in `midterm.cc` is in bounds for every
command-line value `nCsma` (0 is normalised to 1).  The topology block
completes, so its `Get` calls are in range, and it leaves containers larger
than every index used on them anywhere in `main`: 0..3 on `p2pNodes1`, 0..2
on `p2pNodes2`, `csmaNodes1` and `csmaNodes2`; `Assign` makes one interface
per device of `d1` (index 0 used) and of `cd2` (index 2 used).  No run of
`main` stops on an index out of range: for `nCsma ≤ 252` the run completes,
with 2 interfaces in `p2pInterfaces1` and 3 in `csmaInterfaces2`, and for
`nCsma ≥ 253` it stops earlier, on the address overflow of `Assign (cd1)`. -/
theorem C12_indices_in_bounds (nCsma : Nat) :
    Completes (midterm.topology nCsma) (fun t =>
      (∀ i ∈ [0, 1, 2, 3], i < t.p2pNodes1.length) ∧
      (∀ i ∈ [0, 1, 2], i < t.p2pNodes2.length) ∧
      (∀ i ∈ [0, 1, 2], i < t.csmaNodes1.length) ∧
      (∀ i ∈ [0, 1, 2], i < t.csmaNodes2.length) ∧
      0 < t.d1.length ∧ 2 < t.cd2.length) ∧
    midterm.main nCsma ≠ .error .indexOutOfRange ∧
    ((nCsma ≤ 252 ∧ Completes (midterm.main nCsma) (fun r =>
        r.addressing.p2pInterfaces1.length = r.topology.d1.length ∧
        r.addressing.csmaInterfaces2.length = r.topology.cd2.length ∧
        0 < r.addressing.p2pInterfaces1.length ∧
        2 < r.addressing.csmaInterfaces2.length)) ∨
     (253 ≤ nCsma ∧ midterm.main nCsma = .error .addressOverflow)) := by
  obtain ⟨-, f1, f2, f3, f4, f5, -, -, -, -, -, f11⟩ := midterm.topology_fields nCsma
  have hn := midterm.normalised_pos nCsma
  have hd1 : (valueOf (midterm.topology nCsma)).d1.length = 2 := by rw [f5]; rfl
  have hcd2 : (valueOf (midterm.topology nCsma)).cd2.length = 3 := by
    rw [f11]; simp [newDevices_length]
  refine ⟨⟨_, midterm.topology_eq nCsma, ?_, ?_, ?_, ?_, by omega, by omega⟩, ?_, ?_⟩
  · rw [f1]; decide
  · rw [f2]; decide
  · rw [f3]
    intro i hi
    simp only [List.mem_cons, List.mem_singleton, List.not_mem_nil, or_false] at hi
    simp only [List.length_cons, List.length_append, List.length_range',
      List.length_singleton, List.length_nil]
    omega
  · rw [f4]
    intro i hi
    simp only [List.mem_cons, List.mem_singleton, List.not_mem_nil, or_false] at hi
    simp only [List.length_cons, List.length_nil]
    omega
  · by_cases h : nCsma ≤ 252
    · rw [midterm.main_eq nCsma h]; intro e; cases e
    · rw [midterm.main_overflow nCsma (by omega)]; intro e; cases e
  · by_cases h : nCsma ≤ 252
    · left
      refine ⟨h, _, midterm.main_eq nCsma h, assignedInterfaces_length _ _,
        assignedInterfaces_length _ _, ?_, ?_⟩
      · show 0 < (assignedInterfaces _ (valueOf (midterm.topology nCsma)).d1).length
        rw [assignedInterfaces_length, hd1]; omega
      · show 2 < (assignedInterfaces _ (valueOf (midterm.topology nCsma)).cd2).length
        rw [assignedInterfaces_length, hcd2]; omega
    · right
      exact ⟨by omega, midterm.main_overflow nCsma (by omega)⟩

/-- C13: in `midterm.cc` the six `InternetStackHelper::Install` calls cover
every node exactly once, for every command-line value `nCsma`: the calls are
on `p2pNodes1.Get (0)`, `Get (1)`, `Get (3)`, `csmaNodes1`,
`p2pNodes2.Get (1)` and `csmaNodes2`; a node handle receives the stack if
and only if it is one of the `9 + max (nCsma, 1)` created nodes, and each of
these receives it exactly once over all six calls. -/
theorem C13_stack_installed_exactly_once (nCsma : Nat) :
    Completes (midterm.topology nCsma) (fun t =>
      t.world.stackInstalls = [[0], [1], [3], t.csmaNodes1, [5], t.csmaNodes2] ∧
      t.world.nodeCount = 9 + max nCsma 1 ∧
      (∀ x, x ∈ t.world.stackInstalls.flatten ↔ x < 9 + max nCsma 1) ∧
      t.world.stackInstalls.flatten.Nodup ∧
      (∀ x, x < 9 + max nCsma 1 → t.world.stackInstalls.flatten.count x = 1)) := by
  obtain ⟨-, -, -, f3, f4, -⟩ := midterm.topology_fields nCsma
  obtain ⟨-, -, -, -, -, -, -, -, w9⟩ := midterm.topology_world nCsma
  have hmax := midterm.normalised_eq_max nCsma
  have hjoin : (valueOf (midterm.topology nCsma)).world.stackInstalls.flatten =
      0 :: 1 :: 3 :: 2 :: (List.range' 7 (max nCsma 1) ++
        [4, 5, 6, 7 + max nCsma 1, 7 + max nCsma 1 + 1]) := by
    rw [w9, f3, f4, hmax]; exact midterm.stack_join _
  have hmem : ∀ x, x ∈ (valueOf (midterm.topology nCsma)).world.stackInstalls.flatten ↔
      x < 9 + max nCsma 1 := by
    intro x; rw [hjoin]; exact midterm.stack_mem _ x
  have hnodup : (valueOf (midterm.topology nCsma)).world.stackInstalls.flatten.Nodup := by
    rw [hjoin]; exact midterm.stack_nodup _
  refine ⟨_, midterm.topology_eq nCsma, w9, ?_, hmem, hnodup, ?_⟩
  · rw [midterm.topology_nodeCount, hmax]; omega
  · intro x hx
    exact List.count_eq_one_of_mem hnodup ((hmem x).mpr hx)

end NsLab
